import Mathlib

/-!
Verification development for the void_compiler repository: a shallow
embedding of its lexer (src/lexer.cxx), parser (src/parser.cxx) and IR
emitter (src/code_generation.cxx) in Lean 4, together with theorems about
the behaviour those sources implement.

Conventions of the embedding:
* machine integers are modelled as Int with explicit 32-bit wrap-around
  (toI32) at the points where the emitter creates i32 values;
* fallible C++ code (functions that throw std::runtime_error) returns
  Except String;
* std::unordered_map is modelled as an association list: insertion conses
  a fresh entry in front, lookup takes the first hit, erasure removes every
  entry for the key (observationally the same as the map);
* recursion that is not structural in C++ carries an explicit fuel
  argument.
-/

namespace VoidCompiler

/-- Token kinds. The enumeration of include/types.h, extended with the
extra members that src/lexer.cxx emits (I8..U64, Void, Asterisk, DotStar,
Borrow, LBracket, RBracket). -/
inductive TokenType where
  | Const | Identifier | Equals | Fn | LParen | RParen | LBrace | RBrace
  | Arrow | Return | Number | I32 | Bool | True | False | Comma | Colon
  | ColonEquals | Plus | Minus | Multiply | Divide | Import | Dot
  | StringLiteral | If | Else | GreaterThan | LessThan | GreaterEqual
  | LessEqual | EqualEqual | NotEqual | And | Or | Not | Loop | In
  | DotDot | Do | Nil | String | EndOfFile
  | I8 | I16 | I64 | U8 | U16 | U32 | U64 | Void | Asterisk | DotStar
  | Borrow | LBracket | RBracket
  deriving DecidableEq

/-- A token: kind, lexeme, 1-based line and column as recorded by the
lexer (struct Token of include/types.h). -/
structure Token where
  type : TokenType
  value : String
  line : Nat
  column : Nat
  deriving DecidableEq

/-- Lexer state: the remaining source characters and the current line_
and column_ counters (class Lexer of include/lexer.h). The C++ index
position_ is modelled by consuming the list. -/
structure LexState where
  src : List Char
  line : Nat
  column : Nat
  deriving DecidableEq

/-- Lexer::current_char: the next character, or the NUL sentinel at end
of input. -/
def current_char (s : LexState) : Char :=
  match s.src with
  | [] => '\x00'
  | c :: _ => c

/-- Lexer::advance: consume one character, updating line_ and column_. -/
def advance (s : LexState) : LexState :=
  match s.src with
  | [] => { s with column := s.column + 1 }
  | c :: rest =>
      if c = '\n' then { src := rest, line := s.line + 1, column := 1 }
      else { src := rest, line := s.line, column := s.column + 1 }

/-- The whitespace characters skipped by Lexer::skip_whitespace. -/
def isWsChar (c : Char) : Bool :=
  c = ' ' || c = '\t' || c = '\n' || c = '\r'

/-- The inner loop of Lexer::skip_whitespace that consumes a run of
whitespace characters. -/
def skipSpacesGo : List Char → Nat → Nat → LexState
  | [], line, col => ⟨[], line, col⟩
  | c :: rest, line, col =>
      if isWsChar c then
        (if c = '\n' then skipSpacesGo rest (line + 1) 1
         else skipSpacesGo rest line (col + 1))
      else ⟨c :: rest, line, col⟩

/-- The comment-skipping loop of Lexer::skip_whitespace: consume until a
newline or the end of input, without consuming the newline itself. -/
def skipLineGo : List Char → Nat → Nat → LexState
  | [], line, col => ⟨[], line, col⟩
  | c :: rest, line, col =>
      if c = '\n' ∨ c = '\x00' then ⟨c :: rest, line, col⟩
      else skipLineGo rest line (col + 1)

/-- Lexer::skip_whitespace: alternately skip whitespace runs and // line
comments. The fuel is an artifact of the embedding; the wrapper below
passes enough for the loop to finish. -/
def skip_whitespace_go : Nat → LexState → LexState
  | 0, s => s
  | fuel + 1, s =>
      let s1 := skipSpacesGo s.src s.line s.column
      match s1.src with
      | '/' :: '/' :: _ => skip_whitespace_go fuel (skipLineGo s1.src s1.line s1.column)
      | _ => s1

/-- Lexer::skip_whitespace with adequate fuel. -/
def skip_whitespace (s : LexState) : LexState :=
  skip_whitespace_go (s.src.length + 1) s

/-- Lexer::read_identifier: consume alphanumerics and underscores. Such
characters are never a newline, so each step increments column_. -/
def readIdentGo : List Char → Nat → Nat → List Char × LexState
  | [], line, col => ([], ⟨[], line, col⟩)
  | c :: rest, line, col =>
      if c.isAlphanum || c = '_' then
        let p := readIdentGo rest line (col + 1)
        (c :: p.1, p.2)
      else ([], ⟨c :: rest, line, col⟩)

/-- Lexer::read_number: consume a run of decimal digits. -/
def readNumGo : List Char → Nat → Nat → List Char × LexState
  | [], line, col => ([], ⟨[], line, col⟩)
  | c :: rest, line, col =>
      if c.isDigit then
        let p := readNumGo rest line (col + 1)
        (c :: p.1, p.2)
      else ([], ⟨c :: rest, line, col⟩)

/-- The body of Lexer::read_string after the opening quote has been
consumed: decode escapes until the closing quote; an embedded NUL or the
end of input is an unterminated-string error. -/
def readStringGo : List Char → Nat → Nat → Except String (List Char × LexState)
  | [], _, _ => .error "Unterminated string literal"
  | c :: rest, line, col =>
      if c = '"' then .ok ([], ⟨rest, line, col + 1⟩)
      else if c = '\x00' then .error "Unterminated string literal"
      else if c = '\\' then
        match rest with
        | [] => .error "Unterminated string literal"
        | e :: rest2 =>
            let mapped :=
              if e = 'n' then '\n'
              else if e = 't' then '\t'
              else if e = 'r' then '\r'
              else if e = '\\' then '\\'
              else if e = '"' then '"'
              else e
            let line2 := if e = '\n' then line + 1 else line
            let col2 := if e = '\n' then 1 else col + 2
            (readStringGo rest2 line2 col2).map (fun p => (mapped :: p.1, p.2))
      else
        let line2 := if c = '\n' then line + 1 else line
        let col2 := if c = '\n' then 1 else col + 1
        (readStringGo rest line2 col2).map (fun p => (c :: p.1, p.2))

/-- The keyword table of Lexer::next_token: map an identifier lexeme to
its keyword kind, or Identifier when it is not a keyword. -/
def keyword_type (id : String) : TokenType :=
  if id = "const" then .Const
  else if id = "fn" then .Fn
  else if id = "return" then .Return
  else if id = "i8" then .I8
  else if id = "i16" then .I16
  else if id = "i32" then .I32
  else if id = "i64" then .I64
  else if id = "u8" then .U8
  else if id = "u16" then .U16
  else if id = "u32" then .U32
  else if id = "u64" then .U64
  else if id = "bool" then .Bool
  else if id = "true" then .True
  else if id = "false" then .False
  else if id = "import" then .Import
  else if id = "if" then .If
  else if id = "else" then .Else
  else if id = "and" then .And
  else if id = "or" then .Or
  else if id = "not" then .Not
  else if id = "loop" then .Loop
  else if id = "in" then .In
  else if id = "do" then .Do
  else if id = "void" then .Void
  else if id = "string" then .String
  else if id = "nil" then .Nil
  else .Identifier

/-- Lexer::next_token after whitespace has been skipped. Number,
StringLiteral and Identifier/keyword tokens record line_ and column_ as
they stand AFTER the lexeme has been read; punctuation and operator
tokens save the start column before advancing. -/
def next_token_core (s : LexState) : Except String (Token × LexState) :=
  match s.src with
  | [] => .ok ({ type := .EndOfFile, value := "", line := s.line, column := s.column }, s)
  | c :: rest =>
    if c.isDigit then
      let p := readNumGo s.src s.line s.column
      .ok ({ type := .Number, value := String.mk p.1, line := p.2.line, column := p.2.column }, p.2)
    else if c = '"' then
      (readStringGo rest s.line (s.column + 1)).map (fun p =>
        ({ type := .StringLiteral, value := String.mk p.1, line := p.2.line, column := p.2.column }, p.2))
    else if c.isAlpha || c = '_' then
      let p := readIdentGo s.src s.line s.column
      let idStr := String.mk p.1
      .ok ({ type := keyword_type idStr, value := idStr, line := p.2.line, column := p.2.column }, p.2)
    else
      let startCol := s.column
      let s1 := advance s
      if c = '=' then
        if current_char s1 = '=' then
          let s2 := advance s1
          .ok ({ type := .EqualEqual, value := "==", line := s2.line, column := startCol }, s2)
        else .ok ({ type := .Equals, value := "=", line := s1.line, column := startCol }, s1)
      else if c = '>' then
        if current_char s1 = '=' then
          let s2 := advance s1
          .ok ({ type := .GreaterEqual, value := ">=", line := s2.line, column := startCol }, s2)
        else .ok ({ type := .GreaterThan, value := ">", line := s1.line, column := startCol }, s1)
      else if c = '<' then
        if current_char s1 = '=' then
          let s2 := advance s1
          .ok ({ type := .LessEqual, value := "<=", line := s2.line, column := startCol }, s2)
        else .ok ({ type := .LessThan, value := "<", line := s1.line, column := startCol }, s1)
      else if c = '!' then
        if current_char s1 = '=' then
          let s2 := advance s1
          .ok ({ type := .NotEqual, value := "!=", line := s2.line, column := startCol }, s2)
        else .error "Unknown character: !"
      else if c = '(' then
        .ok ({ type := .LParen, value := "(", line := s1.line, column := startCol }, s1)
      else if c = ')' then
        .ok ({ type := .RParen, value := ")", line := s1.line, column := startCol }, s1)
      else if c = '{' then
        .ok ({ type := .LBrace, value := "\x7b", line := s1.line, column := startCol }, s1)
      else if c = '}' then
        .ok ({ type := .RBrace, value := "\x7d", line := s1.line, column := startCol }, s1)
      else if c = '[' then
        .ok ({ type := .LBracket, value := "[", line := s1.line, column := startCol }, s1)
      else if c = ']' then
        .ok ({ type := .RBracket, value := "]", line := s1.line, column := startCol }, s1)
      else if c = ',' then
        .ok ({ type := .Comma, value := ",", line := s1.line, column := startCol }, s1)
      else if c = ':' then
        if current_char s1 = '=' then
          let s2 := advance s1
          .ok ({ type := .ColonEquals, value := ":=", line := s2.line, column := startCol }, s2)
        else .ok ({ type := .Colon, value := ":", line := s1.line, column := startCol }, s1)
      else if c = '+' then
        .ok ({ type := .Plus, value := "+", line := s1.line, column := startCol }, s1)
      else if c = '*' then
        .ok ({ type := .Asterisk, value := "*", line := s1.line, column := startCol }, s1)
      else if c = '/' then
        .ok ({ type := .Divide, value := "/", line := s1.line, column := startCol }, s1)
      else if c = '.' then
        if current_char s1 = '.' then
          let s2 := advance s1
          .ok ({ type := .DotDot, value := "..", line := s2.line, column := startCol }, s2)
        else if current_char s1 = '*' then
          let s2 := advance s1
          .ok ({ type := .DotStar, value := ".*", line := s2.line, column := startCol }, s2)
        else .ok ({ type := .Dot, value := ".", line := s1.line, column := startCol }, s1)
      else if c = '-' then
        if current_char s1 = '>' then
          let s2 := advance s1
          .ok ({ type := .Arrow, value := "->", line := s2.line, column := startCol }, s2)
        else .ok ({ type := .Minus, value := "-", line := s1.line, column := startCol }, s1)
      else if c = '&' then
        .ok ({ type := .Borrow, value := "&", line := s1.line, column := startCol }, s1)
      else .error ("Unknown character: " ++ c.toString)

/-- Lexer::next_token: skip whitespace and comments, then read one
token. -/
def next_token (s : LexState) : Except String (Token × LexState) :=
  next_token_core (skip_whitespace s)

/-- Initial lexer state on a source string: position 0, line 1, column 1. -/
def initLexState (source : String) : LexState :=
  ⟨source.toList, 1, 1⟩

/-!  ## AST (include/types.h) and association-list maps  -/

/-- The AST node kinds of include/types.h, flattened into one inductive
(the C++ uses a class hierarchy with dynamic_cast dispatch). -/
inductive AST where
  | numberLit (value : Int)
  | stringLit (value : String)
  | boolLit (value : Bool)
  | varRef (name : String)
  | binOp (left : AST) (op : TokenType) (right : AST)
  | unOp (op : TokenType) (operand : AST)
  | varDecl (name ty : String) (value : AST)
  | varAssign (name : String) (value : AST)
  | retStmt (expr : Option AST)
  | ifStmt (cond : AST) (thenBody elseBody : List AST)
  | rangeExpr (first last : AST)
  | loopRange (var : String) (range : AST) (body : List AST)
  | loopCond (cond : AST) (body : List AST)
  | funcCall (name : String) (args : List AST)
  | memberAccess (obj member : String) (args : List AST)
  | anonFunc (retType : String) (params : List (String × String)) (body : List AST)

/-- FunctionDeclaration of include/types.h. Parameters are name/type
string pairs. -/
structure FunctionDecl where
  name : String
  returnType : String
  params : List (String × String)
  body : List AST

/-- Program of include/types.h: imports and top-level functions in
declaration order. -/
structure Program where
  imports : List String
  functions : List FunctionDecl

/-- std::unordered_map lookup: first entry for the key (insertions cons
in front, so the first hit is the current binding). -/
def lookupA {α : Type} (k : String) : List (String × α) → Option α
  | [] => none
  | p :: rest => if p.1 = k then some p.2 else lookupA k rest

/-- std::unordered_map insertion or overwrite: cons a fresh binding. -/
def insertA {α : Type} (k : String) (v : α) (m : List (String × α)) : List (String × α) :=
  (k, v) :: m

/-- std::unordered_map erase: remove every binding for the key. -/
def eraseA {α : Type} (k : String) (m : List (String × α)) : List (String × α) :=
  m.filter (fun p => p.1 != k)

/-!  ## FunctionType (include/types.h) -/

/-- FunctionType of include/types.h: parameter type strings and a return
type string. -/
structure FunctionType where
  param_types : List String
  return_type : String
  deriving DecidableEq

/-- The joining loop of FunctionType::to_string: elements separated by a
comma and a single space. -/
def joinCommaSpace : List String → String
  | [] => ""
  | [p] => p
  | p :: q :: rest => p ++ ", " ++ joinCommaSpace (q :: rest)

/-- FunctionType::to_string: the canonical rendering of a
function-pointer type. -/
def FunctionType.to_string (ft : FunctionType) : String :=
  "fn(" ++ joinCommaSpace ft.param_types ++ ") -> " ++ ft.return_type

/-!  ## Parser (src/parser.cxx) -/

/-- Parser state: the token vector, the cursor, and the two symbol
tables used for type inference (class Parser of include/parser.h). -/
structure PState where
  toks : List Token
  cur : Nat
  variable_types : List (String × String)
  function_return_types : List (String × String)
  deriving DecidableEq

/-- Parser::peek: the current token, or an error past the end. -/
def peekT (st : PState) : Except String Token :=
  match st.toks[st.cur]? with
  | none => .error "Unexpected end of input"
  | some t => .ok t

/-- Parser::match: does the current token have the given kind (false
past the end)? -/
def matchT (st : PState) (ty : TokenType) : Bool :=
  match st.toks[st.cur]? with
  | none => false
  | some t => t.type = ty

/-- Does the token AFTER the current one exist and have the given kind
(the lookahead tokens_[current_ + 1] used by Parser::parse_statement)? -/
def matchNextT (st : PState) (ty : TokenType) : Bool :=
  match st.toks[st.cur + 1]? with
  | none => false
  | some t => t.type = ty

/-- Parser::consume: require the current token kind and advance. -/
def consume (expected : TokenType) (st : PState) : Except String (Token × PState) := do
  let t ← peekT st
  if t.type = expected then .ok (t, { st with cur := st.cur + 1 })
  else .error ("Expected token type, got: " ++ t.value)

/-- Advance the cursor without checks (the bare current_++ used by
Parser::parse_type). -/
def bump (st : PState) : PState :=
  { st with cur := st.cur + 1 }

/-- std::stoi on a digit-run lexeme (Number lexemes are exactly ASCII
digit runs). Overflow of the C++ int is not modelled. -/
def stoiDigits (s : String) : Int :=
  s.toList.foldl (fun acc c => acc * 10 + (c.toNat - 48 : Int)) 0

/-- The substring search used by Parser::infer_type on function-pointer
type strings: does the pattern occur at the head? -/
def startsWithList : List Char → List Char → Bool
  | [], _ => true
  | _ :: _, [] => false
  | p :: ps, c :: cs => p = c && startsWithList ps cs

/-- Everything after the first occurrence of the pattern, or none
(std::string::find followed by substr). -/
def afterFirst (pat : List Char) : List Char → Option (List Char)
  | [] => none
  | c :: cs =>
      if startsWithList pat (c :: cs) then some (List.drop pat.length (c :: cs))
      else afterFirst pat cs

/-- Parser::infer_type: purely syntactic type inference over the AST,
reading the two parser symbol tables. -/
def infer_type (varTypes fnRets : List (String × String)) : AST → Except String String
  | .numberLit _ => .ok "i32"
  | .stringLit _ => .ok "const string"
  | .boolLit _ => .ok "bool"
  | .anonFunc rt params _ =>
      .ok ("fn(" ++ joinCommaSpace (params.map (fun _ => "i32")) ++ ") -> " ++ rt)
  | .varRef n =>
      match lookupA n varTypes with
      | some t => .ok t
      | none => .error ("Cannot infer type from undeclared variable '" ++ n ++ "'")
  | .binOp l op r => do
      let lt ← infer_type varTypes fnRets l
      let rt ← infer_type varTypes fnRets r
      if op = .Plus || op = .Minus || op = .Multiply || op = .Divide then
        if lt = "i32" && rt = "i32" then .ok "i32"
        else if op = .Plus && lt = "const string" && rt = "const string" then .ok "const string"
        else
          .error ("Type mismatch in arithmetic operation: " ++ lt ++ " " ++
            (if op = .Plus then "+" else if op = .Minus then "-"
             else if op = .Multiply then "*" else "/") ++ " " ++ rt)
      else if op = .EqualEqual || op = .NotEqual || op = .LessThan || op = .LessEqual ||
              op = .GreaterThan || op = .GreaterEqual then
        if lt = rt then .ok "bool"
        else .error ("Cannot compare different types: " ++ lt ++ " and " ++ rt)
      else if op = .And || op = .Or then
        if lt = "bool" && rt = "bool" then .ok "bool"
        else .error "Logical operations require boolean operands"
      else .error "Cannot infer type from this expression - use explicit type annotation"
  | .funcCall n _ =>
      match lookupA n fnRets with
      | some rt => .ok rt
      | none =>
          match lookupA n varTypes with
          | some ft =>
              match afterFirst " -> ".toList ft.toList with
              | some suffix => .ok (String.mk suffix)
              | none =>
                  if n = "fmt.println" then .ok "nil"
                  else .error ("Cannot infer return type from undeclared function '" ++ n ++ "'")
          | none =>
              if n = "fmt.println" then .ok "nil"
              else .error ("Cannot infer return type from undeclared function '" ++ n ++ "'")
  | _ => .error "Cannot infer type from this expression - use explicit type annotation"

/-- Parser::parse_import: import Identifier. -/
def parse_import (st : PState) : Except String (String × PState) := do
  let (_, st1) ← consume .Import st
  let (t, st2) ← consume .Identifier st1
  .ok (t.value, st2)

/-- The lookahead condition of Parser::parse_statement after consuming
a return keyword: the cursor is past the last token, or the next token
is one of EndOfFile, RBrace, If, Loop, Return, Const. -/
def bare_return_cond (st : PState) : Bool :=
  decide (st.toks.length ≤ st.cur) || matchT st .EndOfFile ||
  matchT st .RBrace || matchT st .If || matchT st .Loop ||
  matchT st .Return || matchT st .Const

mutual

/-- Parser::parse_expression: the lowest precedence level. -/
def parse_expression : Nat → PState → Except String (AST × PState)
  | 0, _ => .error "parser out of fuel"
  | fuel + 1, st => parse_logical_or fuel st

/-- Parser::parse_logical_or. -/
def parse_logical_or : Nat → PState → Except String (AST × PState)
  | 0, _ => .error "parser out of fuel"
  | fuel + 1, st => do
      let (left, st1) ← parse_logical_and fuel st
      parse_or_loop fuel left st1

/-- The while loop of Parser::parse_logical_or (left-associative). -/
def parse_or_loop : Nat → AST → PState → Except String (AST × PState)
  | 0, _, _ => .error "parser out of fuel"
  | fuel + 1, left, st =>
      if matchT st .Or then do
        let (_, st1) ← consume .Or st
        let (right, st2) ← parse_logical_and fuel st1
        parse_or_loop fuel (.binOp left .Or right) st2
      else .ok (left, st)

/-- Parser::parse_logical_and. -/
def parse_logical_and : Nat → PState → Except String (AST × PState)
  | 0, _ => .error "parser out of fuel"
  | fuel + 1, st => do
      let (left, st1) ← parse_comparison fuel st
      parse_and_loop fuel left st1

/-- The while loop of Parser::parse_logical_and (left-associative). -/
def parse_and_loop : Nat → AST → PState → Except String (AST × PState)
  | 0, _, _ => .error "parser out of fuel"
  | fuel + 1, left, st =>
      if matchT st .And then do
        let (_, st1) ← consume .And st
        let (right, st2) ← parse_comparison fuel st1
        parse_and_loop fuel (.binOp left .And right) st2
      else .ok (left, st)

/-- Parser::parse_comparison: a prefix not is handled at this level,
recursively; otherwise a left-associative chain of comparators over
additive expressions. -/
def parse_comparison : Nat → PState → Except String (AST × PState)
  | 0, _ => .error "parser out of fuel"
  | fuel + 1, st =>
      if matchT st .Not then do
        let (t, st1) ← consume .Not st
        let (operand, st2) ← parse_comparison fuel st1
        .ok (.unOp t.type operand, st2)
      else do
        let (left, st1) ← parse_additive fuel st
        parse_cmp_loop fuel left st1

/-- The while loop of Parser::parse_comparison. -/
def parse_cmp_loop : Nat → AST → PState → Except String (AST × PState)
  | 0, _, _ => .error "parser out of fuel"
  | fuel + 1, left, st =>
      if matchT st .GreaterThan || matchT st .LessThan || matchT st .GreaterEqual ||
         matchT st .LessEqual || matchT st .EqualEqual || matchT st .NotEqual then
        match st.toks[st.cur]? with
        | none => .ok (left, st)
        | some t => do
            let (_, st1) ← consume t.type st
            let (right, st2) ← parse_additive fuel st1
            parse_cmp_loop fuel (.binOp left t.type right) st2
      else .ok (left, st)

/-- Parser::parse_additive. -/
def parse_additive : Nat → PState → Except String (AST × PState)
  | 0, _ => .error "parser out of fuel"
  | fuel + 1, st => do
      let (left, st1) ← parse_multiplicative fuel st
      parse_add_loop fuel left st1

/-- The while loop of Parser::parse_additive (left-associative + and -). -/
def parse_add_loop : Nat → AST → PState → Except String (AST × PState)
  | 0, _, _ => .error "parser out of fuel"
  | fuel + 1, left, st =>
      if matchT st .Plus || matchT st .Minus then
        match st.toks[st.cur]? with
        | none => .ok (left, st)
        | some t => do
            let (_, st1) ← consume t.type st
            let (right, st2) ← parse_multiplicative fuel st1
            parse_add_loop fuel (.binOp left t.type right) st2
      else .ok (left, st)

/-- Parser::parse_multiplicative. Note the loop matches
TokenType::Multiply and TokenType::Divide. -/
def parse_multiplicative : Nat → PState → Except String (AST × PState)
  | 0, _ => .error "parser out of fuel"
  | fuel + 1, st => do
      let (left, st1) ← parse_unary fuel st
      parse_mul_loop fuel left st1

/-- The while loop of Parser::parse_multiplicative (left-associative *
and /). -/
def parse_mul_loop : Nat → AST → PState → Except String (AST × PState)
  | 0, _, _ => .error "parser out of fuel"
  | fuel + 1, left, st =>
      if matchT st .Multiply || matchT st .Divide then
        match st.toks[st.cur]? with
        | none => .ok (left, st)
        | some t => do
            let (_, st1) ← consume t.type st
            let (right, st2) ← parse_unary fuel st1
            parse_mul_loop fuel (.binOp left t.type right) st2
      else .ok (left, st)

/-- Parser::parse_unary: currently no unary operators at this level; it
delegates directly to parse_primary. -/
def parse_unary : Nat → PState → Except String (AST × PState)
  | 0, _ => .error "parser out of fuel"
  | fuel + 1, st => parse_primary fuel st

/-- Parser::parse_primary: literals, parenthesized expressions,
anonymous functions, calls, member calls and variable references. -/
def parse_primary : Nat → PState → Except String (AST × PState)
  | 0, _ => .error "parser out of fuel"
  | fuel + 1, st =>
      if matchT st .Number then do
        let (t, st1) ← consume .Number st
        .ok (.numberLit (stoiDigits t.value), st1)
      else if matchT st .StringLiteral then do
        let (t, st1) ← consume .StringLiteral st
        .ok (.stringLit t.value, st1)
      else if matchT st .True then do
        let (_, st1) ← consume .True st
        .ok (.boolLit true, st1)
      else if matchT st .False then do
        let (_, st1) ← consume .False st
        .ok (.boolLit false, st1)
      else if matchT st .LParen then do
        let (_, st1) ← consume .LParen st
        let (e, st2) ← parse_expression fuel st1
        let (_, st3) ← consume .RParen st2
        .ok (e, st3)
      else if matchT st .Fn then
        parse_anonymous_function fuel st
      else if matchT st .Identifier then do
        let (nameT, st1) ← consume .Identifier st
        if matchT st1 .Dot then do
          let (_, st2) ← consume .Dot st1
          let (memberT, st3) ← consume .Identifier st2
          if matchT st3 .LParen then do
            let (_, st4) ← consume .LParen st3
            let (args, st5) ← parse_args fuel st4
            let (_, st6) ← consume .RParen st5
            .ok (.memberAccess nameT.value memberT.value args, st6)
          else .error "Expected function call after member access"
        else if matchT st1 .LParen then do
          let (_, st2) ← consume .LParen st1
          let (args, st3) ← parse_args fuel st2
          let (_, st4) ← consume .RParen st3
          .ok (.funcCall nameT.value args, st4)
        else .ok (.varRef nameT.value, st1)
      else .error "Expected expression"

/-- The argument list of a call: empty if the next token is a closing
parenthesis, otherwise a comma-separated do-while of expressions. -/
def parse_args : Nat → PState → Except String (List AST × PState)
  | 0, _ => .error "parser out of fuel"
  | fuel + 1, st =>
      if matchT st .RParen then .ok ([], st)
      else parse_args_loop fuel st

/-- The do-while argument loop. -/
def parse_args_loop : Nat → PState → Except String (List AST × PState)
  | 0, _ => .error "parser out of fuel"
  | fuel + 1, st => do
      let (e, st1) ← parse_expression fuel st
      if matchT st1 .Comma then do
        let (_, st2) ← consume .Comma st1
        let (rest, st3) ← parse_args_loop fuel st2
        .ok (e :: rest, st3)
      else .ok ([e], st1)

/-- Parser::parse_statement: dispatch on the leading token, with
one-token lookahead for the identifier-led statement forms. -/
def parse_statement : Nat → PState → Except String (AST × PState)
  | 0, _ => .error "parser out of fuel"
  | fuel + 1, st =>
      if matchT st .Return then do
        let (_, st1) ← consume .Return st
        if bare_return_cond st1 then
          .ok (.retStmt none, st1)
        else do
          let (e, st2) ← parse_expression fuel st1
          .ok (.retStmt (some e), st2)
      else if matchT st .If then
        parse_if_statement fuel st
      else if matchT st .Loop then
        parse_loop_statement fuel st
      else if matchT st .Identifier && matchNextT st .Colon then
        parse_variable_declaration fuel st
      else if matchT st .Identifier && matchNextT st .ColonEquals then
        parse_variable_declaration fuel st
      else if matchT st .Identifier && matchNextT st .Equals then
        parse_variable_assignment fuel st
      else if matchT st .Identifier && matchNextT st .Dot then
        parse_expression fuel st
      else if matchT st .Identifier && matchNextT st .LParen then
        parse_expression fuel st
      else .error "Expected statement"

/-- Parser::parse_variable_declaration: either name := value with an
inferred type, or name : Type = value; the binding is recorded in the
parser scope. -/
def parse_variable_declaration : Nat → PState → Except String (AST × PState)
  | 0, _ => .error "parser out of fuel"
  | fuel + 1, st => do
      let (nameT, st1) ← consume .Identifier st
      if matchT st1 .ColonEquals then do
        let (_, st2) ← consume .ColonEquals st1
        let (v, st3) ← parse_expression fuel st2
        let ty ← infer_type st3.variable_types st3.function_return_types v
        let st4 := { st3 with variable_types := insertA nameT.value ty st3.variable_types }
        .ok (.varDecl nameT.value ty v, st4)
      else do
        let (_, st2) ← consume .Colon st1
        let (ty, st3) ← parse_type fuel st2
        let (_, st4) ← consume .Equals st3
        let (v, st5) ← parse_expression fuel st4
        let st6 := { st5 with variable_types := insertA nameT.value ty st5.variable_types }
        .ok (.varDecl nameT.value ty v, st6)

/-- Parser::parse_variable_assignment: name = value. -/
def parse_variable_assignment : Nat → PState → Except String (AST × PState)
  | 0, _ => .error "parser out of fuel"
  | fuel + 1, st => do
      let (nameT, st1) ← consume .Identifier st
      let (_, st2) ← consume .Equals st1
      let (v, st3) ← parse_expression fuel st2
      .ok (.varAssign nameT.value v, st3)

/-- Parser::parse_if_statement, including else-if chains. -/
def parse_if_statement : Nat → PState → Except String (AST × PState)
  | 0, _ => .error "parser out of fuel"
  | fuel + 1, st => do
      let (_, st1) ← consume .If st
      let (cond, st2) ← parse_expression fuel st1
      let (thenBody, st3) ← parse_body fuel st2
      if matchT st3 .Else then do
        let (_, st4) ← consume .Else st3
        if matchT st4 .If then do
          let (inner, st5) ← parse_if_statement fuel st4
          .ok (.ifStmt cond thenBody [inner], st5)
        else do
          let (elseBody, st5) ← parse_body fuel st4
          .ok (.ifStmt cond thenBody elseBody, st5)
      else .ok (.ifStmt cond thenBody [], st3)

/-- Parser::parse_loop_statement: either loop if cond body, or
loop Identifier in range body. -/
def parse_loop_statement : Nat → PState → Except String (AST × PState)
  | 0, _ => .error "parser out of fuel"
  | fuel + 1, st => do
      let (_, st1) ← consume .Loop st
      if matchT st1 .If then do
        let (_, st2) ← consume .If st1
        let (cond, st3) ← parse_expression fuel st2
        let (body, st4) ← parse_body fuel st3
        .ok (.loopCond cond body, st4)
      else do
        let (varT, st2) ← consume .Identifier st1
        let (_, st3) ← consume .In st2
        let (rng, st4) ← parse_range_expression fuel st3
        let (body, st5) ← parse_body fuel st4
        .ok (.loopRange varT.value rng body, st5)

/-- Parser::parse_range_expression: Additive .. Additive. -/
def parse_range_expression : Nat → PState → Except String (AST × PState)
  | 0, _ => .error "parser out of fuel"
  | fuel + 1, st => do
      let (first, st1) ← parse_additive fuel st
      let (_, st2) ← consume .DotDot st1
      let (last, st3) ← parse_additive fuel st2
      .ok (.rangeExpr first last, st3)

/-- The do-or-brace body form shared by if statements, loops and
function bodies. -/
def parse_body : Nat → PState → Except String (List AST × PState)
  | 0, _ => .error "parser out of fuel"
  | fuel + 1, st =>
      if matchT st .Do then do
        let (_, st1) ← consume .Do st
        let (s, st2) ← parse_statement fuel st1
        .ok ([s], st2)
      else do
        let (_, st1) ← consume .LBrace st
        let (ss, st2) ← parse_stmt_list fuel st1
        let (_, st3) ← consume .RBrace st2
        .ok (ss, st3)

/-- The while-not-RBrace statement loop of block bodies. -/
def parse_stmt_list : Nat → PState → Except String (List AST × PState)
  | 0, _ => .error "parser out of fuel"
  | fuel + 1, st =>
      if matchT st .RBrace then .ok ([], st)
      else do
        let (s, st1) ← parse_statement fuel st
        let (rest, st2) ← parse_stmt_list fuel st1
        .ok (s :: rest, st2)

/-- Parser::parse_type. The source recognizes exactly i32, bool,
const string, string and fn(TypeList?) -> Type; the C++ indexes
tokens_[current_] without a bounds check, which this embedding renders
as an error. -/
def parse_type : Nat → PState → Except String (String × PState)
  | 0, _ => .error "parser out of fuel"
  | fuel + 1, st =>
      match st.toks[st.cur]? with
      | none => .error "Unexpected end of input in type"
      | some t =>
          if t.type = .I32 then .ok ("i32", bump st)
          else if t.type = .Bool then .ok ("bool", bump st)
          else if t.type = .Const then
            let st1 := bump st
            match st1.toks[st1.cur]? with
            | none => .error "Expected 'string' after 'const' in type"
            | some t2 =>
                if t2.type = .String then .ok ("const string", bump st1)
                else .error "Expected 'string' after 'const' in type"
          else if t.type = .String then .ok ("string", bump st)
          else if t.type = .Fn then do
            let st1 := bump st
            let (_, st2) ← consume .LParen st1
            let (ps, st3) ← parse_type_list fuel st2
            let (_, st4) ← consume .RParen st3
            let (_, st5) ← consume .Arrow st4
            let (rt, st6) ← parse_type fuel st5
            .ok (FunctionType.to_string ⟨ps, rt⟩, st6)
          else .error ("Unexpected token in type: " ++ t.value)

/-- The parameter-type list of a function-pointer type. -/
def parse_type_list : Nat → PState → Except String (List String × PState)
  | 0, _ => .error "parser out of fuel"
  | fuel + 1, st =>
      if matchT st .RParen then .ok ([], st)
      else parse_type_list_loop fuel st

/-- The do-while loop over comma-separated parameter types. -/
def parse_type_list_loop : Nat → PState → Except String (List String × PState)
  | 0, _ => .error "parser out of fuel"
  | fuel + 1, st => do
      let (ty, st1) ← parse_type fuel st
      if matchT st1 .Comma then do
        let (rest, st2) ← parse_type_list_loop fuel (bump st1)
        .ok (ty :: rest, st2)
      else .ok ([ty], st1)

/-- The parameter list of a function declaration: Identifier : Type,
comma-separated, possibly empty. -/
def parse_params : Nat → PState → Except String (List (String × String) × PState)
  | 0, _ => .error "parser out of fuel"
  | fuel + 1, st =>
      if matchT st .RParen then .ok ([], st)
      else parse_params_loop fuel st

/-- The do-while parameter loop. -/
def parse_params_loop : Nat → PState → Except String (List (String × String) × PState)
  | 0, _ => .error "parser out of fuel"
  | fuel + 1, st => do
      let (nameT, st1) ← consume .Identifier st
      let (_, st2) ← consume .Colon st1
      let (ty, st3) ← parse_type fuel st2
      if matchT st3 .Comma then do
        let (_, st4) ← consume .Comma st3
        let (rest, st5) ← parse_params_loop fuel st4
        .ok ((nameT.value, ty) :: rest, st5)
      else .ok ([(nameT.value, ty)], st3)

/-- Parser::parse_function: const name = fn(params) optional arrow
return type, then the body. The return type must be i32, bool or nil and
defaults to nil; the function is recorded in the return-type table
before the body is parsed. -/
def parse_function : Nat → PState → Except String (FunctionDecl × PState)
  | 0, _ => .error "parser out of fuel"
  | fuel + 1, st => do
      let (nameT, st1) ← (consume .Const st).bind (fun p => consume .Identifier p.2)
      let (_, st2) ← consume .Equals st1
      let (_, st3) ← consume .Fn st2
      let (_, st4) ← consume .LParen st3
      let (params, st5) ← parse_params fuel st4
      let (_, st6) ← consume .RParen st5
      let (retType, st7) ←
        if matchT st6 .Arrow then do
          let (_, stA) ← consume .Arrow st6
          if matchT stA .I32 then do
            let (t, stB) ← consume .I32 stA
            pure (t.value, stB)
          else if matchT stA .Bool then do
            let (t, stB) ← consume .Bool stA
            pure (t.value, stB)
          else if matchT stA .Nil then do
            let (t, stB) ← consume .Nil stA
            pure (t.value, stB)
          else .error "Expected return type (i32, bool, or nil) after '->'"
        else pure ("nil", st6)
      let st8 := { st7 with function_return_types := insertA nameT.value retType st7.function_return_types }
      let (body, st9) ← parse_body fuel st8
      .ok ({ name := nameT.value, returnType := retType, params := params, body := body }, st9)

/-- Parser::parse_anonymous_function: fn(params) optional arrow type
(parsed by parse_type), then the body. -/
def parse_anonymous_function : Nat → PState → Except String (AST × PState)
  | 0, _ => .error "parser out of fuel"
  | fuel + 1, st => do
      let (_, st1) ← consume .Fn st
      let (_, st2) ← consume .LParen st1
      let (params, st3) ← parse_params fuel st2
      let (_, st4) ← consume .RParen st3
      let (retType, st5) ←
        if matchT st4 .Arrow then do
          let (_, stA) ← consume .Arrow st4
          parse_type fuel stA
        else pure ("nil", st4)
      let (body, st6) ← parse_body fuel st5
      .ok (.anonFunc retType params body, st6)

/-- The top-level loop of Parser::parse: imports and const function
declarations until EndOfFile. -/
def parse_program_loop : Nat → Program → PState → Except String (Program × PState)
  | 0, _, _ => .error "parser out of fuel"
  | fuel + 1, prog, st =>
      if matchT st .EndOfFile then .ok (prog, st)
      else if matchT st .Import then do
        let (imp, st1) ← parse_import st
        parse_program_loop fuel { prog with imports := prog.imports ++ [imp] } st1
      else if matchT st .Const then do
        let (f, st1) ← parse_function fuel st
        parse_program_loop fuel { prog with functions := prog.functions ++ [f] } st1
      else .error "Expected import or function declaration"

end

/-- Parser::parse on a token vector, with fuel. -/
def parse_tokens (fuel : Nat) (toks : List Token) : Except String Program :=
  (parse_program_loop fuel ⟨[], []⟩ ⟨toks, 0, [], []⟩).map (fun p => p.1)

/-- A token with irrelevant position data, for token-level statements. -/
def mkTok (ty : TokenType) (v : String) : Token :=
  { type := ty, value := v, line := 1, column := 1 }

/-- An identifier token. -/
def idTok (s : String) : Token := mkTok .Identifier s

/-- Run the expression parser on a plain token list. -/
def parseExprToks (fuel : Nat) (toks : List Token) : Except String AST :=
  (parse_expression fuel ⟨toks, 0, [], []⟩).map (fun p => p.1)

/-!  ## LLVM-class types and the type-string helpers of
src/code_generation.cxx -/

/-- The LLVM-class types the emitter constructs. -/
inductive LType where
  | int (width : Nat)
  | ptr (pointee : LType)
  | fnTy (params : List LType) (ret : LType)
  | voidTy

/-- CodeGenerator::is_function_pointer_type: starts_with "fn(". -/
def is_function_pointer_type (s : String) : Bool :=
  startsWithList "fn(".toList s.toList

/-- Characters before and after the first occurrence of a character
(std::string::find of a char plus the two substr calls around it). -/
def takeUntilChar (c : Char) : List Char → Option (List Char × List Char)
  | [] => none
  | x :: xs =>
      if x = c then some ([], xs)
      else (takeUntilChar c xs).map (fun p => (x :: p.1, p.2))

/-- Characters before and after the first occurrence of a substring. -/
def breakAtSub (pat : List Char) : List Char → Option (List Char × List Char)
  | [] => none
  | c :: cs =>
      if startsWithList pat (c :: cs) then some ([], List.drop pat.length (c :: cs))
      else (breakAtSub pat cs).map (fun p => (c :: p.1, p.2))

/-- The comma-space splitting loop of CodeGenerator::parse_function_type. -/
def splitCommaSpaceGo : Nat → List Char → List (List Char)
  | 0, _ => []
  | _ + 1, [] => []
  | fuel + 1, l =>
      match breakAtSub ", ".toList l with
      | none => [l]
      | some (before, after) => before :: splitCommaSpaceGo fuel after

/-- Split a parameter-list string at every comma-space, as the do-while
of CodeGenerator::parse_function_type does. -/
def splitCommaSpace (l : List Char) : List (List Char) :=
  splitCommaSpaceGo (l.length + 1) l

/-- CodeGenerator::parse_function_type: parse a canonical
"fn(p1, p2) -> r" string back into a FunctionType. The search for the
closing parenthesis and for the arrow takes the FIRST occurrence, as the
C++ does (the source comments that nested function types are not
handled). -/
def parse_function_type (s : String) : Except String FunctionType :=
  let cs := s.toList
  if is_function_pointer_type s then
    match takeUntilChar ')' (List.drop 3 cs) with
    | none => .error ("Missing ')' in function type: " ++ s)
    | some p =>
        let param_types :=
          if p.1.isEmpty then [] else (splitCommaSpace p.1).map String.mk
        match afterFirst " -> ".toList cs with
        | none => .error ("Missing ' -> ' in function type: " ++ s)
        | some rt => .ok ⟨param_types, String.mk rt⟩
  else .error ("Invalid function type format: " ++ s)

mutual

/-- CodeGenerator::get_llvm_type_from_string, with fuel for the
recursion into function-pointer component types (the wrapper below
passes adequate fuel). -/
def get_llvm_type_go : Nat → String → Except String LType
  | 0, s => .error ("Unsupported type: " ++ s)
  | fuel + 1, s =>
      if s = "i8" then .ok (.int 8)
      else if s = "i16" then .ok (.int 16)
      else if s = "i32" then .ok (.int 32)
      else if s = "i64" then .ok (.int 64)
      else if s = "u8" then .ok (.int 8)
      else if s = "u16" then .ok (.int 16)
      else if s = "u32" then .ok (.int 32)
      else if s = "u64" then .ok (.int 64)
      else if s = "bool" then .ok (.int 1)
      else if s = "string" || s = "const string" then .ok (.ptr (.int 8))
      else if is_function_pointer_type s then do
        let ft ← parse_function_type s
        let ps ← get_llvm_list_go fuel ft.param_types
        let rt ← get_llvm_type_go fuel ft.return_type
        .ok (.ptr (.fnTy ps rt))
      else .error ("Unsupported type: " ++ s)

/-- The parameter-type conversion loop inside
CodeGenerator::get_llvm_type_from_string. -/
def get_llvm_list_go : Nat → List String → Except String (List LType)
  | 0, _ => .error "Unsupported type: "
  | _ + 1, [] => .ok []
  | fuel + 1, s :: rest => do
      let t ← get_llvm_type_go fuel s
      let ts ← get_llvm_list_go fuel rest
      .ok (t :: ts)

end

/-- CodeGenerator::get_llvm_type_from_string with adequate fuel (every
component type string of a function-pointer type is strictly shorter
than the whole). -/
def get_llvm_type_from_string (s : String) : Except String LType :=
  get_llvm_type_go (s.length + 1) s

/-!  ## The emitted IR -/

/-- 32-bit signed wrap-around: normalize an Int into the i32 value range. -/
def toI32 (n : Int) : Int := (n + 2 ^ 31) % 2 ^ 32 - 2 ^ 31

/-- Emitted IR expressions. An expression tree stands for the
instructions the builder emits for it, in left-to-right order; storage
slots stand for the named alloca instructions, identified by a
generation-time counter so that shadowing allocas with equal names stay
distinct. argVal i is the i-th incoming function argument. -/
inductive IRExpr where
  | constI32 (v : Int)
  | constI1 (b : Bool)
  | globalStr (s : String)
  | load (slot : Nat)
  | funcAddr (name : String)
  | argVal (idx : Nat)
  | add (a b : IRExpr)
  | sub (a b : IRExpr)
  | mul (a b : IRExpr)
  | sdiv (a b : IRExpr)
  | icmpSGT (a b : IRExpr)
  | icmpSLT (a b : IRExpr)
  | icmpSGE (a b : IRExpr)
  | icmpSLE (a b : IRExpr)
  | icmpEQ (a b : IRExpr)
  | icmpNE (a b : IRExpr)
  | band (a b : IRExpr)
  | bor (a b : IRExpr)
  | bnot (a : IRExpr)
  | callDirect (fname : String) (args : List IRExpr)
  | callIndirect (slot : Nat) (args : List IRExpr)

/-- Emitted IR statements, kept in the structured shape the emitter
produces: generate_range_loop always emits the same loop.cond /
loop.body / loop.end block pattern (initialize the slot with the start
value, compare signed-less-than against the end value computed once
before the loop, run the body, increment by one, repeat), so the
rangeLoop node stands for exactly that basic-block pattern; likewise
ite for the then/else/ifcont pattern and condLoop for the conditional
loop pattern with its condition re-emitted in the loop.cond block. -/
inductive IRStmt where
  | store (slot : Nat) (e : IRExpr)
  | exprStmt (e : IRExpr)
  | retVoid
  | ret (e : IRExpr)
  | ite (cond : IRExpr) (thenB elseB : List IRStmt)
  | rangeLoop (slot : Nat) (startE endE : IRExpr) (body : List IRStmt)
  | condLoop (cond : IRExpr) (body : List IRStmt)

/-- A generated function: name, parameter slots, whether the return
type was void/nil, and the body (parameter stores first). -/
structure IRFunc where
  name : String
  paramSlots : List Nat
  isVoid : Bool
  body : List IRStmt

/-!  ## The code generator (src/code_generation.cxx) -/

/-- CodeGenerator state: the four maps of the class
(function_params_, local_variables_, variable_types_, and the module's
function table with each function's argument count), the functions
generated so far, a fresh-slot counter, the anonymous-function counter,
the current function's return type, and whether the builder's current
block already ends in a terminator. -/
structure GenState where
  function_params : List (String × Nat)
  local_variables : List (String × Nat)
  variable_types : List (String × String)
  module_funcs : List (String × Nat)
  gen_funcs : List IRFunc
  next_slot : Nat
  anon_counter : Nat
  current_function_return_type : String
  block_terminated : Bool

/-- The empty generator state. -/
def initGenState : GenState :=
  { function_params := [], local_variables := [], variable_types := [],
    module_funcs := [], gen_funcs := [], next_slot := 0, anon_counter := 0,
    current_function_return_type := "", block_terminated := false }

/-- The parameter prologue of generate_function: one alloca per
parameter, storing the incoming argument, and the name-to-slot map
entries. Returns the slots, the stores, and the updated state. -/
def allocParamsGo : Nat → List (String × String) → GenState → List Nat × List IRStmt × GenState
  | _, [], st => ([], [], st)
  | idx, (n, _) :: rest, st =>
      let slot := st.next_slot
      let st1 := { st with next_slot := st.next_slot + 1,
                           function_params := insertA n slot st.function_params }
      let p := allocParamsGo (idx + 1) rest st1
      (slot :: p.1, .store slot (.argVal idx) :: p.2.1, p.2.2)

/-- The format-string rewriting loop of the fmt.println lowering:
replace every occurrence of a pattern, resuming the search after each
replacement. -/
def replaceSubGo (pat rep : List Char) : Nat → List Char → List Char
  | 0, l => l
  | _ + 1, [] => []
  | fuel + 1, c :: cs =>
      if startsWithList pat (c :: cs) then
        rep ++ replaceSubGo pat rep fuel (List.drop pat.length (c :: cs))
      else c :: replaceSubGo pat rep fuel cs

/-- Replace every occurrence of a pattern in a string. -/
def replaceSub (pat rep s : String) : String :=
  String.mk (replaceSubGo pat.toList rep.toList (s.length + 1) s.toList)

/-- The fmt.println format-string transformation: Rust-style
placeholders to C-style (first the d form, then the s form, as the two
while loops in the source run), then a trailing newline. -/
def transformFormat (s : String) : String :=
  replaceSub "\x7b:s\x7d" "%s" (replaceSub "\x7b:d\x7d" "%d" s) ++ "\n"

mutual

/-- CodeGenerator::generate_expression: lower an AST expression to IR,
threading the generator state. The dynamic_cast cascade of the source
becomes a match in the same order. -/
def generate_expression : Nat → AST → GenState → Except String (IRExpr × GenState)
  | 0, _, _ => .error "generator out of fuel"
  | fuel + 1, node, st =>
      match node with
      | .numberLit v => .ok (.constI32 (toI32 v), st)
      | .stringLit s => .ok (.globalStr s, st)
      | .boolLit b => .ok (.constI1 b, st)
      | .varRef n =>
          match lookupA n st.function_params with
          | some slot => .ok (.load slot, st)
          | none =>
              match lookupA n st.local_variables with
              | some slot =>
                  match lookupA n st.variable_types with
                  | some ty => do
                      let _ ← get_llvm_type_from_string ty
                      .ok (.load slot, st)
                  | none => .ok (.load slot, st)
              | none =>
                  match lookupA n st.module_funcs with
                  | some _ => .ok (.funcAddr n, st)
                  | none => .error ("Unknown variable: " ++ n)
      | .binOp l op r => do
          let (lv, st1) ← generate_expression fuel l st
          let (rv, st2) ← generate_expression fuel r st1
          if op = .Plus then .ok (.add lv rv, st2)
          else if op = .Minus then .ok (.sub lv rv, st2)
          else if op = .Multiply then .ok (.mul lv rv, st2)
          else if op = .Divide then .ok (.sdiv lv rv, st2)
          else if op = .GreaterThan then .ok (.icmpSGT lv rv, st2)
          else if op = .LessThan then .ok (.icmpSLT lv rv, st2)
          else if op = .GreaterEqual then .ok (.icmpSGE lv rv, st2)
          else if op = .LessEqual then .ok (.icmpSLE lv rv, st2)
          else if op = .EqualEqual then .ok (.icmpEQ lv rv, st2)
          else if op = .NotEqual then .ok (.icmpNE lv rv, st2)
          else if op = .And then .ok (.band lv rv, st2)
          else if op = .Or then .ok (.bor lv rv, st2)
          else .error "Unknown binary operator"
      | .unOp op e => do
          let (v, st1) ← generate_expression fuel e st
          if op = .Not then .ok (.bnot v, st1)
          else .error "Unknown unary operator"
      | .funcCall name args =>
          (match lookupA name st.local_variables with
          | some slot =>
              (match lookupA name st.variable_types with
              | some ty =>
                  if is_function_pointer_type ty then do
                    let _ ← get_llvm_type_from_string ty
                    let ft ← parse_function_type ty
                    let expected := ft.param_types.length
                    let provided := args.length
                    if provided ≠ expected then
                      .error ("Function pointer '" ++ name ++ "' expects " ++
                        toString expected ++ " arguments, but " ++
                        toString provided ++ " were provided")
                    else do
                      let (irArgs, st1) ← generate_expr_list fuel args st
                      let _ ← get_llvm_list_go (ty.length + 1) ft.param_types
                      let _ ← get_llvm_type_from_string ft.return_type
                      .ok (.callIndirect slot irArgs, st1)
                  else generate_direct_call fuel name args st
              | none => generate_direct_call fuel name args st)
          | none => generate_direct_call fuel name args st)
      | .anonFunc rt params body => generate_anonymous_function fuel rt params body st
      | .memberAccess obj member args =>
          if obj = "fmt" && member = "println" then
            let st1 :=
              match lookupA "printf" st.module_funcs with
              | some _ => st
              | none => { st with module_funcs := insertA "printf" 1 st.module_funcs }
            match args with
            | [] => .ok (.callDirect "printf" [], st1)
            | a0 :: rest =>
                match a0 with
                | .stringLit fs => do
                    let (irRest, st2) ← generate_expr_list fuel rest st1
                    .ok (.callDirect "printf" (.globalStr (transformFormat fs) :: irRest), st2)
                | _ => do
                    let (ir0, st2) ← generate_expression fuel a0 st1
                    let (irRest, st3) ← generate_expr_list fuel rest st2
                    .ok (.callDirect "printf" (ir0 :: irRest), st3)
          else .error ("Unknown member access: " ++ obj ++ "." ++ member)
      | _ => .error "Unknown expression type"

/-- The direct-call fallback of generate_expression: look the callee up
in the module's function table, validate the argument count against the
function's arg_size, then emit the arguments and the call. -/
def generate_direct_call : Nat → String → List AST → GenState → Except String (IRExpr × GenState)
  | 0, _, _, _ => .error "generator out of fuel"
  | fuel + 1, name, args, st =>
      match lookupA name st.module_funcs with
      | none => .error ("Unknown function: " ++ name)
      | some arity =>
          if args.length ≠ arity then
            .error ("Function '" ++ name ++ "' expects " ++ toString arity ++
              " arguments, but " ++ toString args.length ++ " were provided")
          else do
            let (irArgs, st1) ← generate_expr_list fuel args st
            .ok (.callDirect name irArgs, st1)

/-- The argument-emission loop shared by the call paths. -/
def generate_expr_list : Nat → List AST → GenState → Except String (List IRExpr × GenState)
  | 0, _, _ => .error "generator out of fuel"
  | _ + 1, [], st => .ok ([], st)
  | fuel + 1, e :: rest, st => do
      let (v, st1) ← generate_expression fuel e st
      let (vs, st2) ← generate_expr_list fuel rest st1
      .ok (v :: vs, st2)

/-- CodeGenerator::generate_anonymous_function: synthesize a fresh
anon_N internal function, save the parameter/local maps and the current
return type, generate the body in a cleared scope, synthesize ret void
for void/nil bodies without a terminator, then restore the saved state
and hand the function back as a value. variable_types_ is NOT saved or
restored, exactly as in the source. -/
def generate_anonymous_function : Nat → String → List (String × String) → List AST → GenState → Except String (IRExpr × GenState)
  | 0, _, _, _, _ => .error "generator out of fuel"
  | fuel + 1, rt, params, body, st =>
      let func_name := "anon_" ++ toString st.anon_counter
      let st0 := { st with anon_counter := st.anon_counter + 1 }
      let st1 := { st0 with module_funcs := insertA func_name params.length st0.module_funcs }
      let savedParams := st1.function_params
      let savedLocals := st1.local_variables
      let savedRet := st1.current_function_return_type
      let savedTerm := st1.block_terminated
      let st2 := { st1 with function_params := [], local_variables := [],
                            current_function_return_type := rt, block_terminated := false }
      let pr := allocParamsGo 0 params st2
      do
        let (bodyIR, st4) ← generate_statements fuel body pr.2.2
        let bodyIR2 :=
          if (rt = "void" || rt = "nil") && !st4.block_terminated then bodyIR ++ [.retVoid]
          else bodyIR
        let irf : IRFunc :=
          { name := func_name, paramSlots := pr.1,
            isVoid := rt = "void" || rt = "nil", body := pr.2.1 ++ bodyIR2 }
        .ok (.funcAddr func_name,
          { st4 with gen_funcs := st4.gen_funcs ++ [irf],
                     function_params := savedParams,
                     local_variables := savedLocals,
                     current_function_return_type := savedRet,
                     block_terminated := savedTerm })

/-- CodeGenerator::generate_statement: lower one statement. The
block_terminated flag tracks whether the builder's current block ends in
a terminator: true right after a return is emitted, false after any
other statement (if and loop lowering leave the builder in a fresh
merge/end block). -/
def generate_statement : Nat → AST → GenState → Except String (List IRStmt × GenState)
  | 0, _, _ => .error "generator out of fuel"
  | fuel + 1, node, st =>
      match node with
      | .retStmt none =>
          if st.current_function_return_type ≠ "nil" then
            .error "Cannot use 'return' without value in non-nil function"
          else .ok ([.retVoid], { st with block_terminated := true })
      | .retStmt (some e) =>
          if st.current_function_return_type = "nil" then
            .error "Cannot return a value from a nil function"
          else do
            let (v, st1) ← generate_expression fuel e st
            .ok ([.ret v], { st1 with block_terminated := true })
      | .varDecl name ty v => do
          let (iv, st1) ← generate_expression fuel v st
          let _ ← get_llvm_type_from_string ty
          let slot := st1.next_slot
          let st2 := { st1 with next_slot := st1.next_slot + 1 }
          .ok ([.store slot iv],
            { st2 with local_variables := insertA name slot st2.local_variables,
                       variable_types := insertA name ty st2.variable_types,
                       block_terminated := false })
      | .varAssign name v => do
          let (iv, st1) ← generate_expression fuel v st
          match lookupA name st1.local_variables with
          | some slot => .ok ([.store slot iv], { st1 with block_terminated := false })
          | none =>
              match lookupA name st1.function_params with
              | some slot => .ok ([.store slot iv], { st1 with block_terminated := false })
              | none => .error ("Unknown variable for assignment: " ++ name)
      | .memberAccess obj member args => do
          let (e, st1) ← generate_expression fuel (.memberAccess obj member args) st
          .ok ([.exprStmt e], { st1 with block_terminated := false })
      | .funcCall name args => do
          let (e, st1) ← generate_expression fuel (.funcCall name args) st
          .ok ([.exprStmt e], { st1 with block_terminated := false })
      | .ifStmt cond thenB elseB => do
          let (c, st1) ← generate_expression fuel cond st
          let (ti, st2) ← generate_statements fuel thenB st1
          let (ei, st3) ← generate_statements fuel elseB st2
          .ok ([.ite c ti ei], { st3 with block_terminated := false })
      | .loopRange var rng body => generate_range_loop fuel var rng body st
      | .loopCond cond body => do
          let (c, st1) ← generate_expression fuel cond st
          let (b, st2) ← generate_statements fuel body st1
          .ok ([.condLoop c b], { st2 with block_terminated := false })
      | _ => .error "Unknown statement type"

/-- CodeGenerator::generate_range_loop: emit the start and end values,
allocate the loop variable and bind its name in local_variables_,
generate the body, emit the loop pattern, then ERASE the loop variable's
name from local_variables_ (no previous binding is restored). -/
def generate_range_loop : Nat → String → AST → List AST → GenState → Except String (List IRStmt × GenState)
  | 0, _, _, _, _ => .error "generator out of fuel"
  | fuel + 1, var, rng, body, st =>
      match rng with
      | .rangeExpr first last => do
          let (sv, st1) ← generate_expression fuel first st
          let (ev, st2) ← generate_expression fuel last st1
          let slot := st2.next_slot
          let st3 := { st2 with next_slot := st2.next_slot + 1,
                                local_variables := insertA var slot st2.local_variables }
          let (bodyIR, st4) ← generate_statements fuel body st3
          .ok ([.rangeLoop slot sv ev bodyIR],
            { st4 with local_variables := eraseA var st4.local_variables,
                       block_terminated := false })
      | _ => .error "Expected range expression in range loop"

/-- The statement loop of generate_function and of every nested body. -/
def generate_statements : Nat → List AST → GenState → Except String (List IRStmt × GenState)
  | 0, _, _ => .error "generator out of fuel"
  | _ + 1, [], st => .ok ([], st)
  | fuel + 1, s :: rest, st => do
      let (i1, st1) ← generate_statement fuel s st
      let (i2, st2) ← generate_statements fuel rest st1
      .ok (i1 ++ i2, st2)

end

/-- The entry setup of CodeGenerator::generate_function: create the
module function (its arg_size is the declared parameter count), clear
the parameter and local maps (variable_types_ is NOT cleared, as in the
source), record the return type, and start in a fresh entry block. -/
def function_entry_state (fd : FunctionDecl) (st : GenState) : GenState :=
  { st with module_funcs := insertA fd.name fd.params.length st.module_funcs,
            function_params := [], local_variables := [],
            current_function_return_type := fd.returnType,
            block_terminated := false }

/-- CodeGenerator::generate_function, continued: emit the parameter
prologue and the body into the entry state, and synthesize a trailing
ret void for a void/nil function whose current block has no
terminator. -/
def generate_function (fuel : Nat) (fd : FunctionDecl) (st : GenState) : Except String GenState :=
  let pr := allocParamsGo 0 fd.params (function_entry_state fd st)
  do
    let (bodyIR, st4) ← generate_statements fuel fd.body pr.2.2
    let bodyIR2 :=
      if (fd.returnType = "void" || fd.returnType = "nil") && !st4.block_terminated then
        bodyIR ++ [.retVoid]
      else bodyIR
    .ok { st4 with gen_funcs := st4.gen_funcs ++
            [{ name := fd.name, paramSlots := pr.1,
               isVoid := fd.returnType = "void" || fd.returnType = "nil",
               body := pr.2.1 ++ bodyIR2 }] }

/-- The function loop of CodeGenerator::generate_program. -/
def generate_function_list (fuel : Nat) : List FunctionDecl → GenState → Except String GenState
  | [], st => .ok st
  | f :: rest, st => do
      let st1 ← generate_function fuel f st
      generate_function_list fuel rest st1

/-- CodeGenerator::generate_program: imports are ignored; functions are
generated in order. -/
def generate_program (fuel : Nat) (p : Program) (st : GenState) : Except String GenState :=
  generate_function_list fuel p.functions st

/-!  ## Semantics of the emitted IR

An interpreter for the structured IR above, giving the run-time meaning
of the emitted basic-block patterns: the rangeLoop node executes as the
emitted blocks do (store the start value, then repeatedly load the slot,
compare signed-less-than against the end value computed once up front,
run the body, load and increment the slot by one). Machine i32 values
are Ints normalized into the signed 32-bit range. -/

/-- Runtime values: i32 integers, i1 booleans, string pointers, function
pointers, and the unit value of a void call. -/
inductive Value where
  | vInt (n : Int)
  | vBool (b : Bool)
  | vStr (s : String)
  | vFunc (name : String)
  | vUnit
  deriving DecidableEq

/-- Read a storage slot. -/
def lookupSlot (k : Nat) : List (Nat × Value) → Option Value
  | [] => none
  | p :: rest => if p.1 = k then some p.2 else lookupSlot k rest

/-- Write a storage slot. -/
def setSlot (k : Nat) (v : Value) (env : List (Nat × Value)) : List (Nat × Value) :=
  (k, v) :: env

/-- Outcome of executing statements: the final environment, whether a
return was executed (and its value), and how many times range-loop
bodies in the current function frame were entered. -/
structure ExecOut where
  env : List (Nat × Value)
  ret : Option (Option Value)
  iters : Nat
  deriving DecidableEq

/-- Look a generated function up by name. -/
def findFunc (name : String) : List IRFunc → Option IRFunc
  | [] => none
  | f :: rest => if f.name = name then some f else findFunc name rest

mutual

/-- Evaluate an emitted expression. Expressions never write the current
frame's slots; calls run the callee's body in a fresh frame. An
ill-typed operation, a missing slot, a division by zero, a call of an
external or unknown function, or falling off a non-void callee are
undefined behaviour and yield none. -/
def evalExpr : Nat → List IRFunc → List Value → IRExpr → List (Nat × Value) → Option Value
  | 0, _, _, _, _ => none
  | fuel + 1, module, args, e, env =>
      match e with
      | .constI32 v => some (.vInt v)
      | .constI1 b => some (.vBool b)
      | .globalStr s => some (.vStr s)
      | .load slot => lookupSlot slot env
      | .funcAddr n => some (.vFunc n)
      | .argVal i => args.get? i
      | .add a b =>
          match evalExpr fuel module args a env, evalExpr fuel module args b env with
          | some (.vInt x), some (.vInt y) => some (.vInt (toI32 (x + y)))
          | _, _ => none
      | .sub a b =>
          match evalExpr fuel module args a env, evalExpr fuel module args b env with
          | some (.vInt x), some (.vInt y) => some (.vInt (toI32 (x - y)))
          | _, _ => none
      | .mul a b =>
          match evalExpr fuel module args a env, evalExpr fuel module args b env with
          | some (.vInt x), some (.vInt y) => some (.vInt (toI32 (x * y)))
          | _, _ => none
      | .sdiv a b =>
          match evalExpr fuel module args a env, evalExpr fuel module args b env with
          | some (.vInt x), some (.vInt y) =>
              if y = 0 then none else some (.vInt (toI32 (Int.tdiv x y)))
          | _, _ => none
      | .icmpSGT a b =>
          match evalExpr fuel module args a env, evalExpr fuel module args b env with
          | some (.vInt x), some (.vInt y) => some (.vBool (decide (x > y)))
          | _, _ => none
      | .icmpSLT a b =>
          match evalExpr fuel module args a env, evalExpr fuel module args b env with
          | some (.vInt x), some (.vInt y) => some (.vBool (decide (x < y)))
          | _, _ => none
      | .icmpSGE a b =>
          match evalExpr fuel module args a env, evalExpr fuel module args b env with
          | some (.vInt x), some (.vInt y) => some (.vBool (decide (x ≥ y)))
          | _, _ => none
      | .icmpSLE a b =>
          match evalExpr fuel module args a env, evalExpr fuel module args b env with
          | some (.vInt x), some (.vInt y) => some (.vBool (decide (x ≤ y)))
          | _, _ => none
      | .icmpEQ a b =>
          match evalExpr fuel module args a env, evalExpr fuel module args b env with
          | some (.vInt x), some (.vInt y) => some (.vBool (decide (x = y)))
          | some (.vBool x), some (.vBool y) => some (.vBool (x = y))
          | _, _ => none
      | .icmpNE a b =>
          match evalExpr fuel module args a env, evalExpr fuel module args b env with
          | some (.vInt x), some (.vInt y) => some (.vBool (decide (x ≠ y)))
          | some (.vBool x), some (.vBool y) => some (.vBool (x ≠ y))
          | _, _ => none
      | .band a b =>
          match evalExpr fuel module args a env, evalExpr fuel module args b env with
          | some (.vBool x), some (.vBool y) => some (.vBool (x && y))
          | some (.vInt x), some (.vInt y) => some (.vInt (toI32 (Int.land x y)))
          | _, _ => none
      | .bor a b =>
          match evalExpr fuel module args a env, evalExpr fuel module args b env with
          | some (.vBool x), some (.vBool y) => some (.vBool (x || y))
          | some (.vInt x), some (.vInt y) => some (.vInt (toI32 (Int.lor x y)))
          | _, _ => none
      | .bnot a =>
          match evalExpr fuel module args a env with
          | some (.vBool x) => some (.vBool (!x))
          | some (.vInt x) => some (.vInt (toI32 (-1 - x)))
          | _ => none
      | .callDirect fname cargs =>
          match evalArgs fuel module args cargs env with
          | none => none
          | some vs => callFunc fuel module fname vs
      | .callIndirect slot cargs =>
          match lookupSlot slot env with
          | some (.vFunc fname) =>
              match evalArgs fuel module args cargs env with
              | none => none
              | some vs => callFunc fuel module fname vs
          | _ => none

/-- Evaluate the arguments of a call, left to right. -/
def evalArgs : Nat → List IRFunc → List Value → List IRExpr → List (Nat × Value) → Option (List Value)
  | 0, _, _, _, _ => none
  | _ + 1, _, _, [], _ => some []
  | fuel + 1, module, args, e :: rest, env =>
      match evalExpr fuel module args e env, evalArgs fuel module args rest env with
      | some v, some vs => some (v :: vs)
      | _, _ => none

/-- Run a named function on argument values: a fresh frame whose
parameter stores in the body prologue bind the arguments. A void callee
yields vUnit; falling off the end of a non-void callee is undefined. -/
def callFunc : Nat → List IRFunc → String → List Value → Option Value
  | 0, _, _, _ => none
  | fuel + 1, module, fname, vs =>
      match findFunc fname module with
      | none => none
      | some f =>
          match execStmts fuel module vs f.body [] with
          | none => none
          | some out =>
              match out.ret with
              | some (some v) => some v
              | some none => some .vUnit
              | none => if f.isVoid then some .vUnit else none

/-- Execute one statement. -/
def execStmt : Nat → List IRFunc → List Value → IRStmt → List (Nat × Value) → Option ExecOut
  | 0, _, _, _, _ => none
  | fuel + 1, module, args, s, env =>
      match s with
      | .store slot e =>
          match evalExpr fuel module args e env with
          | none => none
          | some v => some ⟨setSlot slot v env, none, 0⟩
      | .exprStmt e =>
          match evalExpr fuel module args e env with
          | none => none
          | some _ => some ⟨env, none, 0⟩
      | .retVoid => some ⟨env, some none, 0⟩
      | .ret e =>
          match evalExpr fuel module args e env with
          | none => none
          | some v => some ⟨env, some (some v), 0⟩
      | .ite c thenB elseB =>
          match evalExpr fuel module args c env with
          | some (.vBool b) =>
              if b then execStmts fuel module args thenB env
              else execStmts fuel module args elseB env
          | _ => none
      | .condLoop c body => condLoopIter fuel module args c body env
      | .rangeLoop slot sE eE body =>
          match evalExpr fuel module args sE env with
          | some (.vInt a) =>
              match evalExpr fuel module args eE env with
              | some (.vInt b) => rangeLoopIter fuel module args slot b body (setSlot slot (.vInt a) env)
              | _ => none
          | _ => none

/-- The loop.cond / loop.body / loop.end execution of an emitted range
loop, after the slot has been initialized: load the slot, compare
signed-less-than against the end value, run the body, then load the slot
again and store its value plus one, and branch back. A return inside the
body leaves the function. -/
def rangeLoopIter : Nat → List IRFunc → List Value → Nat → Int → List IRStmt → List (Nat × Value) → Option ExecOut
  | 0, _, _, _, _, _, _ => none
  | fuel + 1, module, args, slot, b, body, env =>
      match lookupSlot slot env with
      | some (.vInt i) =>
          if i < b then
            match execStmts fuel module args body env with
            | none => none
            | some out =>
                if out.ret.isSome then some ⟨out.env, out.ret, out.iters + 1⟩
                else
                  match lookupSlot slot out.env with
                  | some (.vInt cur) =>
                      match rangeLoopIter fuel module args slot b body
                              (setSlot slot (.vInt (toI32 (cur + 1))) out.env) with
                      | none => none
                      | some rec2 => some ⟨rec2.env, rec2.ret, out.iters + 1 + rec2.iters⟩
                  | _ => none
          else some ⟨env, none, 0⟩
      | _ => none

/-- The execution of an emitted conditional loop: re-evaluate the
condition in loop.cond before every iteration. -/
def condLoopIter : Nat → List IRFunc → List Value → IRExpr → List IRStmt → List (Nat × Value) → Option ExecOut
  | 0, _, _, _, _, _ => none
  | fuel + 1, module, args, c, body, env =>
      match evalExpr fuel module args c env with
      | some (.vBool cond) =>
          if cond then
            match execStmts fuel module args body env with
            | none => none
            | some out =>
                if out.ret.isSome then some out
                else
                  match condLoopIter fuel module args c body out.env with
                  | none => none
                  | some rec2 => some ⟨rec2.env, rec2.ret, out.iters + rec2.iters⟩
          else some ⟨env, none, 0⟩
      | _ => none

/-- Execute a statement sequence, stopping at the first return. -/
def execStmts : Nat → List IRFunc → List Value → List IRStmt → List (Nat × Value) → Option ExecOut
  | 0, _, _, _, _ => none
  | _ + 1, _, _, [], env => some ⟨env, none, 0⟩
  | fuel + 1, module, args, s :: rest, env =>
      match execStmt fuel module args s env with
      | none => none
      | some out =>
          if out.ret.isSome then some out
          else
            match execStmts fuel module args rest out.env with
            | none => none
            | some out2 => some ⟨out2.env, out2.ret, out.iters + out2.iters⟩

end

/-- Run a generated function by name on argument values, giving the
returned value (some none for a void return). -/
def runFunc (fuel : Nat) (module : List IRFunc) (name : String) (args : List Value) : Option (Option Value) :=
  match findFunc name module with
  | none => none
  | some f =>
      match execStmts fuel module args f.body [] with
      | none => none
      | some out => out.ret

/-!  ## Fixtures and token-kind classifications for the theorems -/

/-- The token sequence of the summation example program
const main = fn() -> i32 with body: sum := 0, loop i in 0..5 with body
sum = sum + i, then return sum. -/
def sumProgramToks : List Token :=
  [mkTok .Const "const", idTok "main", mkTok .Equals "=", mkTok .Fn "fn",
   mkTok .LParen "(", mkTok .RParen ")", mkTok .Arrow "->", mkTok .I32 "i32",
   mkTok .LBrace "\x7b", idTok "sum", mkTok .ColonEquals ":=", mkTok .Number "0",
   mkTok .Loop "loop", idTok "i", mkTok .In "in", mkTok .Number "0",
   mkTok .DotDot "..", mkTok .Number "5", mkTok .LBrace "\x7b", idTok "sum",
   mkTok .Equals "=", idTok "sum", mkTok .Plus "+", idTok "i",
   mkTok .RBrace "\x7d", mkTok .Return "return", idTok "sum", mkTok .RBrace "\x7d",
   mkTok .EndOfFile ""]

/-- The statements of the summation main function. -/
def sumStmt1 : AST := .varDecl "sum" "i32" (.numberLit 0)
def sumStmt2 : AST := .loopRange "i" (.rangeExpr (.numberLit 0) (.numberLit 5))
  [.varAssign "sum" (.binOp (.varRef "sum") .Plus (.varRef "i"))]
def sumStmt3 : AST := .retStmt (some (.varRef "sum"))

def sumProgramAST : Program :=
  ⟨[], [{ name := "main", returnType := "i32", params := [],
          body := [sumStmt1, sumStmt2, sumStmt3] }]⟩

def sumMainIR : IRFunc :=
  { name := "main", paramSlots := [], isVoid := false,
    body := [.store 0 (.constI32 0),
             .rangeLoop 1 (.constI32 0) (.constI32 5)
               [.store 0 (.add (.load 0) (.load 1))],
             .ret (.load 0)] }

/-- The generator state after emitting the summation program. -/
def sumGenOut : GenState :=
  { function_params := [], local_variables := [("sum", 0)],
    variable_types := [("sum", "i32")], module_funcs := [("main", 0)],
    gen_funcs := [sumMainIR], next_slot := 2, anon_counter := 0,
    current_function_return_type := "i32", block_terminated := true }

/-- Parse the summation program, run the code generator over it, and
execute the emitted main function. -/
def sumProgramResult : Option (Option Value) :=
  match parse_tokens 100 sumProgramToks with
  | .error _ => none
  | .ok prog =>
      match generate_program 100 prog initGenState with
      | .error _ => none
      | .ok st => runFunc 100 st.gen_funcs "main" []

/-- The punctuation and operator token kinds, produced by the switch at
the end of Lexer::next_token. -/
def isOperatorKind : TokenType → Bool
  | .EqualEqual | .Equals | .GreaterEqual | .GreaterThan | .LessEqual
  | .LessThan | .NotEqual | .LParen | .RParen | .LBrace | .RBrace
  | .LBracket | .RBracket | .Comma | .ColonEquals | .Colon | .Plus
  | .Asterisk | .Divide | .DotDot | .DotStar | .Dot | .Arrow | .Minus
  | .Borrow => true
  | _ => false

/-- The token kinds produced from an identifier lexeme by the keyword
table of Lexer::next_token (a keyword kind or Identifier). -/
def isIdentOrKeywordKind : TokenType → Bool
  | .Identifier | .Const | .Fn | .Return | .I8 | .I16 | .I32 | .I64
  | .U8 | .U16 | .U32 | .U64 | .Bool | .True | .False | .Import | .If
  | .Else | .And | .Or | .Not | .Loop | .In | .Do | .Void | .String
  | .Nil => true
  | _ => false

/-!  ## Helper lemmas -/

/-- Erasing a key from an association list makes its lookup fail. -/
theorem lookupA_eraseA {α : Type} (k : String) (m : List (String × α)) :
    lookupA k (eraseA k m) = none := by
  induction m with
  | nil => rfl
  | cons p rest ih =>
      simp only [eraseA, List.filter_cons] at *
      by_cases h : p.1 = k
      · simpa [h] using ih
      · simpa [h, lookupA] using ih

/-- The accumulator of the String.intercalate worker distributes over
appending. -/
theorem intercalate_go_append (s : String) :
    ∀ (l : List String) (x y : String),
      String.intercalate.go (x ++ y) s l = x ++ String.intercalate.go y s l := by
  intro l
  induction l with
  | nil => intro x y; rfl
  | cons a as ih =>
      intro x y
      show String.intercalate.go (x ++ y ++ s ++ a) s as =
        x ++ String.intercalate.go (y ++ s ++ a) s as
      simp only [String.append_assoc]
      rw [ih]

/-- The joining loop of FunctionType::to_string agrees with
String.intercalate on a comma and a space. -/
theorem joinCommaSpace_eq_intercalate :
    ∀ l : List String, joinCommaSpace l = String.intercalate ", " l := by
  intro l
  induction l with
  | nil => rfl
  | cons p rest ih =>
      cases rest with
      | nil => rfl
      | cons q rest2 =>
          rw [joinCommaSpace, ih]
          show _ = String.intercalate.go p ", " (q :: rest2)
          show _ = String.intercalate.go (p ++ ", " ++ q) ", " rest2
          rw [intercalate_go_append ", " rest2 (p ++ ", ") q]
          show p ++ ", " ++ String.intercalate.go q ", " rest2 = _
          simp [String.append_assoc, String.intercalate]

end VoidCompiler

namespace VoidCompiler

/-!  ## Claim theorems -/

/-- C4: the parser builds expressions with the documented precedence.
For identifiers a, b, c and the token sequences of a + b * c the AST
root is a Plus node whose right child is a Multiply node; for
a and b or c the root is Or; for not a > 10 the root is the unary Not
applied to the GreaterThan comparison; and every binary level
(or, and, comparisons, additive, multiplicative) associates to the
left. -/
theorem parser_precedence_C4 : ∀ x y z : String,
    (parseExprToks 30 [idTok x, mkTok .Plus "+", idTok y, mkTok .Multiply "*", idTok z] =
      .ok (.binOp (.varRef x) .Plus (.binOp (.varRef y) .Multiply (.varRef z)))) ∧
    (parseExprToks 30 [idTok x, mkTok .And "and", idTok y, mkTok .Or "or", idTok z] =
      .ok (.binOp (.binOp (.varRef x) .And (.varRef y)) .Or (.varRef z))) ∧
    (parseExprToks 30 [mkTok .Not "not", idTok x, mkTok .GreaterThan ">", mkTok .Number "10"] =
      .ok (.unOp .Not (.binOp (.varRef x) .GreaterThan (.numberLit 10)))) ∧
    (parseExprToks 30 [idTok x, mkTok .Or "or", idTok y, mkTok .Or "or", idTok z] =
      .ok (.binOp (.binOp (.varRef x) .Or (.varRef y)) .Or (.varRef z))) ∧
    (parseExprToks 30 [idTok x, mkTok .And "and", idTok y, mkTok .And "and", idTok z] =
      .ok (.binOp (.binOp (.varRef x) .And (.varRef y)) .And (.varRef z))) ∧
    (parseExprToks 30 [idTok x, mkTok .LessThan "<", idTok y, mkTok .GreaterThan ">", idTok z] =
      .ok (.binOp (.binOp (.varRef x) .LessThan (.varRef y)) .GreaterThan (.varRef z))) ∧
    (parseExprToks 30 [idTok x, mkTok .Plus "+", idTok y, mkTok .Minus "-", idTok z] =
      .ok (.binOp (.binOp (.varRef x) .Plus (.varRef y)) .Minus (.varRef z))) ∧
    (parseExprToks 30 [idTok x, mkTok .Multiply "*", idTok y, mkTok .Divide "/", idTok z] =
      .ok (.binOp (.binOp (.varRef x) .Multiply (.varRef y)) .Divide (.varRef z))) := by
  intro x y z
  exact ⟨rfl, rfl, rfl, rfl, rfl, rfl, rfl, rfl⟩

/-- C6: FunctionType::to_string renders exactly the canonical form
(parameter types joined by a comma and a single space between fn( and
the arrow), and parsing the token sequence of fn(i32, i32) -> i32 then
rendering it yields exactly the string fn(i32, i32) -> i32. -/
theorem function_type_round_trip_C6 :
    (∀ (ps : List String) (r : String),
       FunctionType.to_string ⟨ps, r⟩ =
         "fn(" ++ String.intercalate ", " ps ++ ") -> " ++ r) ∧
    ((parse_type 30 ⟨[mkTok .Fn "fn", mkTok .LParen "(", mkTok .I32 "i32",
        mkTok .Comma ",", mkTok .I32 "i32", mkTok .RParen ")",
        mkTok .Arrow "->", mkTok .I32 "i32"], 0, [], []⟩).map (fun p => p.1) =
      .ok "fn(i32, i32) -> i32") := by
  constructor
  · intro ps r
    rw [FunctionType.to_string, joinCommaSpace_eq_intercalate]
  · rfl

/-- C7 counterexample: the claim says the type recognizer accepts the
sized integer keyword i8, but Parser::parse_type rejects an i8 token
with the unexpected-token-in-type error. -/
theorem parse_type_i8_rejected_C7 :
    parse_type 30 ⟨[mkTok .I8 "i8"], 0, [], []⟩ =
      .error "Unexpected token in type: i8" := by
  rfl

/-- C7 amended: the type recognizer accepts exactly i32, bool, string,
the two-token const string, and fn(TypeList?) -> Type; every one of the
other surface type keywords (i8, i16, i64, u8..u64, nil, void) and the
pointer marker rejects with the unexpected-token-in-type error naming
the lexeme. -/
theorem parse_type_amended_C7 :
    ((parse_type 30 ⟨[mkTok .I32 "i32"], 0, [], []⟩).map (fun p => p.1) = .ok "i32") ∧
    ((parse_type 30 ⟨[mkTok .Bool "bool"], 0, [], []⟩).map (fun p => p.1) = .ok "bool") ∧
    ((parse_type 30 ⟨[mkTok .String "string"], 0, [], []⟩).map (fun p => p.1) = .ok "string") ∧
    ((parse_type 30 ⟨[mkTok .Const "const", mkTok .String "string"], 0, [], []⟩).map (fun p => p.1) =
      .ok "const string") ∧
    ((parse_type 30 ⟨[mkTok .Fn "fn", mkTok .LParen "(", mkTok .RParen ")",
        mkTok .Arrow "->", mkTok .I32 "i32"], 0, [], []⟩).map (fun p => p.1) = .ok "fn() -> i32") ∧
    (∀ (t : TokenType) (v : String) (fuel : Nat),
       t ∈ [TokenType.I8, .I16, .I64, .U8, .U16, .U32, .U64, .Nil, .Void, .Asterisk] →
       parse_type (fuel + 1) ⟨[mkTok t v], 0, [], []⟩ =
         .error ("Unexpected token in type: " ++ v)) := by
  refine ⟨rfl, rfl, rfl, rfl, ?_, ?_⟩
  · rfl
  · intro t v fuel ht
    fin_cases ht <;> rfl

/-- Witness for the amended C7 theorem: the membership hypothesis is
satisfied at the concrete kind I8, and the conclusion evaluates. -/
theorem parse_type_amended_C7_witness :
    parse_type 7 ⟨[mkTok .I8 "i8"], 0, [], []⟩ =
      .error ("Unexpected token in type: " ++ "i8") :=
  parse_type_amended_C7.2.2.2.2.2 .I8 "i8" 6 (by decide)

/-- C8 counterexample: the claim says the parser accepts a prefix minus
at the unary level and that the emitter lowers unary minus to
0 - operand; in the source parse_unary has no operators (a Minus token
in expression position is the expected-expression error, so return -5
does not parse), and generate_expression handles only Not among unary
operators, raising the unknown-unary-operator error on a unary Minus
node. -/
theorem unary_minus_C8_counterexample :
    (parse_statement 30 ⟨[mkTok .Return "return", mkTok .Minus "-", mkTok .Number "5"],
       0, [], []⟩ = .error "Expected expression") ∧
    (generate_expression 5 (.unOp .Minus (.numberLit 5)) initGenState =
      .error "Unknown unary operator") := by
  exact ⟨rfl, rfl⟩

end VoidCompiler

namespace VoidCompiler

/-- Inversion for a successful Except bind. -/
theorem bindE_ok {α β : Type} {x : Except String α} {f : α → Except String β} {b : β}
    (h : (x >>= f) = .ok b) : ∃ a, x = .ok a ∧ f a = .ok b := by
  cases x with
  | error e => exact absurd h (by simp [Bind.bind, Except.bind])
  | ok a => exact ⟨a, rfl, by simpa [Bind.bind, Except.bind] using h⟩

/-- C8 amended: the unary precedence level accepts no operator at all
(parse_unary delegates directly to parse_primary, so a Minus token in
expression position fails with the expected-expression error), and the
emitter lowers only Not among unary operators: a unary Minus node whose
operand generates successfully raises the unknown-unary-operator
error rather than emitting 0 - operand. -/
theorem unary_minus_amended_C8 :
    (∀ (fuel : Nat) (st : PState), parse_unary (fuel + 1) st = parse_primary fuel st) ∧
    (∀ (fuel : Nat) (st : PState) (t : Token),
       st.toks[st.cur]? = some t → t.type = .Minus →
       parse_expression (fuel + 8) st = .error "Expected expression") ∧
    (∀ (fuel : Nat) (e : AST) (st : GenState) (v : IRExpr) (st1 : GenState),
       generate_expression fuel e st = .ok (v, st1) →
       generate_expression (fuel + 1) (.unOp .Minus e) st =
         .error "Unknown unary operator") := by
  refine ⟨fun fuel st => rfl, ?_, ?_⟩
  · intro fuel st t h ht
    have h0 : parse_primary (fuel + 1) st = .error "Expected expression" := by
      simp [parse_primary, matchT, h, ht]
    have h1 : parse_unary (fuel + 2) st = .error "Expected expression" := by
      rw [parse_unary, h0]
    have h2 : parse_multiplicative (fuel + 3) st = .error "Expected expression" := by
      rw [parse_multiplicative, h1]; rfl
    have h3 : parse_additive (fuel + 4) st = .error "Expected expression" := by
      rw [parse_additive, h2]; rfl
    have h4 : parse_comparison (fuel + 5) st = .error "Expected expression" := by
      rw [parse_comparison]
      have : matchT st .Not = false := by simp [matchT, h, ht]
      rw [this]
      simp only [Bool.false_eq_true, if_false]
      rw [h3]; rfl
    have h5 : parse_logical_and (fuel + 6) st = .error "Expected expression" := by
      rw [parse_logical_and, h4]; rfl
    have h6 : parse_logical_or (fuel + 7) st = .error "Expected expression" := by
      rw [parse_logical_or, h5]; rfl
    rw [parse_expression, h6]
  · intro fuel e st v st1 hok
    rw [generate_expression, hok]
    rfl

/-- Witness for the amended C8 theorem, at a Minus token in expression
position and a concrete unary Minus node. -/
theorem unary_minus_amended_C8_witness :
    parse_expression 8 ⟨[mkTok .Minus "-"], 0, [], []⟩ = .error "Expected expression" ∧
    generate_expression 2 (.unOp .Minus (.numberLit 7)) initGenState =
      .error "Unknown unary operator" :=
  ⟨unary_minus_amended_C8.2.1 0 ⟨[mkTok .Minus "-"], 0, [], []⟩ (mkTok .Minus "-") rfl rfl,
   unary_minus_amended_C8.2.2 1 (.numberLit 7) initGenState (.constI32 (toI32 7)) initGenState rfl⟩

/-- C9 counterexample: lexing the source abc yields an Identifier token
whose recorded column is 4, the position after the lexeme, while the
first character of the lexeme is at column 1. -/
theorem lexer_position_C9_counterexample :
    (next_token (initLexState "abc") =
      .ok ({ type := .Identifier, value := "abc", line := 1, column := 4 }, ⟨[], 1, 4⟩)) ∧
    (4 : Nat) ≠ 1 :=
  ⟨rfl, by decide⟩

end VoidCompiler

namespace VoidCompiler

/-- C5: after consuming a return keyword, the parser produces a bare
ReturnStatement exactly when the cursor is past the last token or the
next token is one of EndOfFile, RBrace, If, Loop, Return, Const
(bare_return_cond); for any other next token it parses an expression
and attaches it to the ReturnStatement. -/
theorem return_lookahead_C5 :
    ∀ (fuel : Nat) (st : PState), matchT st .Return = true →
    ((bare_return_cond (bump st) = true →
        parse_statement (fuel + 1) st = .ok (.retStmt none, bump st)) ∧
     (∀ msg, bare_return_cond (bump st) = false →
        parse_expression fuel (bump st) = .error msg →
        parse_statement (fuel + 1) st = .error msg) ∧
     (∀ e st2, bare_return_cond (bump st) = false →
        parse_expression fuel (bump st) = .ok (e, st2) →
        parse_statement (fuel + 1) st = .ok (.retStmt (some e), st2)) ∧
     (∀ st2, parse_statement (fuel + 1) st = .ok (.retStmt none, st2) →
        bare_return_cond (bump st) = true)) := by
  intro fuel st hm
  obtain ⟨t, hget, htype⟩ : ∃ t, st.toks[st.cur]? = some t ∧ t.type = .Return := by
    unfold matchT at hm
    rcases hg : st.toks[st.cur]? with _ | t
    · rw [hg] at hm; simp at hm
    · rw [hg] at hm; simp at hm; exact ⟨t, rfl, hm⟩
  have hcons : consume .Return st = .ok (t, bump st) := by
    simp [consume, peekT, hget, htype, bump, Bind.bind, Except.bind]
  have hstart : ∀ r : Except String (AST × PState),
      (parse_statement (fuel + 1) st = r) =
      ((if bare_return_cond (bump st) then .ok (.retStmt none, bump st)
        else do
          let p ← parse_expression fuel (bump st)
          Except.ok (AST.retStmt (some p.1), p.2)) = r) := by
    intro r
    rw [parse_statement, hm]
    simp only [if_true]
    rw [hcons]
    congr 1
  have c1 : bare_return_cond (bump st) = true →
      parse_statement (fuel + 1) st = .ok (.retStmt none, bump st) := by
    intro hb; rw [hstart]; rw [hb]; rfl
  have c2 : ∀ msg, bare_return_cond (bump st) = false →
      parse_expression fuel (bump st) = .error msg →
      parse_statement (fuel + 1) st = .error msg := by
    intro msg hb he; rw [hstart]; rw [hb]
    simp only [Bool.false_eq_true, if_false]
    rw [he]; rfl
  have c3 : ∀ e st2, bare_return_cond (bump st) = false →
      parse_expression fuel (bump st) = .ok (e, st2) →
      parse_statement (fuel + 1) st = .ok (.retStmt (some e), st2) := by
    intro e st2 hb he; rw [hstart]; rw [hb]
    simp only [Bool.false_eq_true, if_false]
    rw [he]; rfl
  refine ⟨c1, c2, c3, ?_⟩
  · intro st2 hout
    by_contra hb
    rw [Bool.not_eq_true] at hb
    rcases he : parse_expression fuel (bump st) with msg | p
    · rw [c2 msg hb he] at hout; exact absurd hout (by simp)
    · rw [c3 p.1 p.2 hb he] at hout
      simp at hout

/-- Witness for the C5 theorem: a return token directly followed by a
closing brace produces a bare ReturnStatement. -/
theorem return_lookahead_C5_witness :
    parse_statement 6 ⟨[mkTok .Return "return", mkTok .RBrace "\x7d"], 0, [], []⟩ =
      .ok (.retStmt none, bump ⟨[mkTok .Return "return", mkTok .RBrace "\x7d"], 0, [], []⟩) :=
  (return_lookahead_C5 5 ⟨[mkTok .Return "return", mkTok .RBrace "\x7d"], 0, [], []⟩ rfl).1 rfl

end VoidCompiler

namespace VoidCompiler

/-- C10: emitting a range loop erases the loop variable's name from
local_variables_ on exit without restoring any previous binding, so
after the loop the name no longer resolves as a local: a later
reference falls through to the parameter lookup, then to the module
function table, and otherwise fails with the unknown-variable error. -/
theorem range_loop_scope_C10 :
    ∀ (fuel : Nat) (var : String) (rng : AST) (body : List AST) (st : GenState)
      (irs : List IRStmt) (st2 : GenState),
    generate_range_loop (fuel + 1) var rng body st = .ok (irs, st2) →
    lookupA var st2.local_variables = none ∧
    (∀ fuel2 slot, lookupA var st2.function_params = some slot →
       generate_expression (fuel2 + 1) (.varRef var) st2 = .ok (.load slot, st2)) ∧
    (∀ fuel2 arity, lookupA var st2.function_params = none →
       lookupA var st2.module_funcs = some arity →
       generate_expression (fuel2 + 1) (.varRef var) st2 = .ok (.funcAddr var, st2)) ∧
    (∀ fuel2, lookupA var st2.function_params = none →
       lookupA var st2.module_funcs = none →
       generate_expression (fuel2 + 1) (.varRef var) st2 =
         .error ("Unknown variable: " ++ var)) := by
  intro fuel var rng body st irs st2 h
  have hloc : lookupA var st2.local_variables = none := by
    cases rng
    case rangeExpr first last =>
      rw [generate_range_loop] at h
      obtain ⟨⟨sv, st1⟩, hS, h⟩ := bindE_ok h
      obtain ⟨⟨ev, st2x⟩, hE, h⟩ := bindE_ok h
      obtain ⟨⟨bodyIR, st4⟩, hB, h⟩ := bindE_ok h
      simp only [Except.ok.injEq, Prod.mk.injEq] at h
      rw [← h.2]
      exact lookupA_eraseA var _
    all_goals simp [generate_range_loop] at h
  refine ⟨hloc, ?_, ?_, ?_⟩
  · intro fuel2 slot hp
    rw [generate_expression, hp]
  · intro fuel2 arity hp hmf
    rw [generate_expression, hp, hloc, hmf]
  · intro fuel2 hp hmf
    rw [generate_expression, hp, hloc, hmf]

/-- Witness for the C10 theorem: a concrete loop over i erases i. -/
theorem range_loop_scope_C10_witness :
    generate_range_loop 5 "i" (.rangeExpr (.numberLit 0) (.numberLit 3)) [] initGenState =
      .ok ([.rangeLoop 0 (.constI32 0) (.constI32 3) []], { initGenState with next_slot := 1 }) ∧
    lookupA "i" ({ initGenState with next_slot := 1 } : GenState).local_variables = none :=
  ⟨rfl,
   (range_loop_scope_C10 4 "i" (.rangeExpr (.numberLit 0) (.numberLit 3)) [] initGenState
     [.rangeLoop 0 (.constI32 0) (.constI32 3) []] { initGenState with next_slot := 1 } rfl).1⟩

/-- C2: the void-function law. For a function whose surface return type
is nil, a body whose generation ends with the current block
unterminated gets a synthesized trailing ret void; a value-bearing
return statement in a nil function is a fatal error; and a bare return
in a non-nil function is a fatal error. -/
theorem void_function_law_C2 :
    (∀ (fuel : Nat) (fd : FunctionDecl) (st : GenState) (stmts : List IRStmt) (st4 : GenState),
       fd.returnType = "nil" →
       generate_statements fuel fd.body
         (allocParamsGo 0 fd.params (function_entry_state fd st)).2.2 = .ok (stmts, st4) →
       st4.block_terminated = false →
       generate_function fuel fd st =
         .ok { st4 with gen_funcs := st4.gen_funcs ++
           [{ name := fd.name,
              paramSlots := (allocParamsGo 0 fd.params (function_entry_state fd st)).1,
              isVoid := true,
              body := (allocParamsGo 0 fd.params (function_entry_state fd st)).2.1 ++
                (stmts ++ [.retVoid]) }] }) ∧
    (∀ (fuel : Nat) (st : GenState) (e : AST),
       st.current_function_return_type = "nil" →
       generate_statement (fuel + 1) (.retStmt (some e)) st =
         .error "Cannot return a value from a nil function") ∧
    (∀ (fuel : Nat) (st : GenState),
       st.current_function_return_type ≠ "nil" →
       generate_statement (fuel + 1) (.retStmt none) st =
         .error "Cannot use 'return' without value in non-nil function") := by
  refine ⟨?_, ?_, ?_⟩
  · intro fuel fd st stmts st4 hnil hgen hterm
    rw [generate_function]
    rw [hgen]
    simp [hnil, hterm, Bind.bind, Except.bind]
  · intro fuel st e hnil
    rw [generate_statement]
    simp [hnil]
  · intro fuel st hnn
    rw [generate_statement]
    simp [hnn]

/-- Witness for the C2 theorem: a nil function with an empty body gets
a synthesized ret void; a value-bearing return errors in a nil
function; a bare return errors in an i32 function. -/
theorem void_function_law_C2_witness :
    (generate_function 3 ⟨"f", "nil", [], []⟩ initGenState =
      .ok { function_entry_state ⟨"f", "nil", [], []⟩ initGenState with
              gen_funcs := [{ name := "f", paramSlots := [], isVoid := true,
                              body := [] ++ ([] ++ [.retVoid]) }] }) ∧
    (generate_statement 1 (.retStmt (some (.numberLit 0)))
       { initGenState with current_function_return_type := "nil" } =
      .error "Cannot return a value from a nil function") ∧
    (generate_statement 1 (.retStmt none)
       { initGenState with current_function_return_type := "i32" } =
      .error "Cannot use 'return' without value in non-nil function") :=
  ⟨void_function_law_C2.1 3 ⟨"f", "nil", [], []⟩ initGenState []
     (function_entry_state ⟨"f", "nil", [], []⟩ initGenState) rfl rfl rfl,
   void_function_law_C2.2.1 0 { initGenState with current_function_return_type := "nil" }
     (.numberLit 0) rfl,
   void_function_law_C2.2.2 0 { initGenState with current_function_return_type := "i32" }
     (by decide)⟩

end VoidCompiler

namespace VoidCompiler

/-- A successful Except bind reduces. -/
theorem ok_bind {α β : Type} (a : α) (f : α → Except String β) :
    (Except.ok a >>= f) = f a := rfl

/-- A successful direct call implies the callee is in the module table
with matching arity. -/
theorem direct_call_ok_arity {fuel : Nat} {name : String} {args : List AST}
    {st : GenState} {e : IRExpr} {st1 : GenState}
    (h : generate_direct_call (fuel + 1) name args st = .ok (e, st1)) :
    ∃ arity, lookupA name st.module_funcs = some arity ∧ args.length = arity := by
  rw [generate_direct_call] at h
  rcases hmf : lookupA name st.module_funcs with _ | arity <;> simp only [hmf] at h
  · exact absurd h (by simp)
  · refine ⟨arity, rfl, ?_⟩
    by_cases hlen : args.length = arity
    · exact hlen
    · rw [if_pos hlen] at h; exact absurd h (by simp)

/-- C3: the arity law of call emission. A call expression is emitted
only if the argument count equals the callee's parameter count (for an
indirect callee, the parameter count of its parsed function-pointer
type; for a direct callee, the module function's arg_size); when the
counts match and the arguments generate, the call is emitted; on a
mismatch the fatal error names the callee and the expected and actual
counts; and a callee that is neither a known local variable nor a known
module function is the unknown-function fatal error. -/
theorem call_arity_law_C3 :
    (∀ (fuel : Nat) (name : String) (args : List AST) (st : GenState)
       (e : IRExpr) (st1 : GenState),
       generate_expression (fuel + 2) (.funcCall name args) st = .ok (e, st1) →
       (∃ ty ft, lookupA name st.variable_types = some ty ∧
          parse_function_type ty = .ok ft ∧ args.length = ft.param_types.length) ∨
       (∃ arity, lookupA name st.module_funcs = some arity ∧ args.length = arity)) ∧
    (∀ (fuel : Nat) (name : String) (args : List AST) (st : GenState) (slot : Nat)
       (ty : String) (lt : LType) (ft : FunctionType),
       lookupA name st.local_variables = some slot →
       lookupA name st.variable_types = some ty →
       is_function_pointer_type ty = true →
       get_llvm_type_from_string ty = .ok lt →
       parse_function_type ty = .ok ft →
       args.length ≠ ft.param_types.length →
       generate_expression (fuel + 2) (.funcCall name args) st =
         .error ("Function pointer '" ++ name ++ "' expects " ++
           toString ft.param_types.length ++ " arguments, but " ++
           toString args.length ++ " were provided")) ∧
    (∀ (fuel : Nat) (name : String) (args : List AST) (st : GenState) (arity : Nat),
       lookupA name st.local_variables = none →
       lookupA name st.module_funcs = some arity →
       args.length ≠ arity →
       generate_expression (fuel + 2) (.funcCall name args) st =
         .error ("Function '" ++ name ++ "' expects " ++ toString arity ++
           " arguments, but " ++ toString args.length ++ " were provided")) ∧
    (∀ (fuel : Nat) (name : String) (args : List AST) (st : GenState) (arity : Nat)
       (irArgs : List IRExpr) (st1 : GenState),
       lookupA name st.local_variables = none →
       lookupA name st.module_funcs = some arity →
       args.length = arity →
       generate_expr_list fuel args st = .ok (irArgs, st1) →
       generate_expression (fuel + 2) (.funcCall name args) st =
         .ok (.callDirect name irArgs, st1)) ∧
    (∀ (fuel : Nat) (name : String) (args : List AST) (st : GenState) (slot : Nat)
       (ty : String) (lt : LType) (ft : FunctionType) (irArgs : List IRExpr)
       (st1 : GenState) (lps : List LType) (lrt : LType),
       lookupA name st.local_variables = some slot →
       lookupA name st.variable_types = some ty →
       is_function_pointer_type ty = true →
       get_llvm_type_from_string ty = .ok lt →
       parse_function_type ty = .ok ft →
       args.length = ft.param_types.length →
       generate_expr_list (fuel + 1) args st = .ok (irArgs, st1) →
       get_llvm_list_go (ty.length + 1) ft.param_types = .ok lps →
       get_llvm_type_from_string ft.return_type = .ok lrt →
       generate_expression (fuel + 2) (.funcCall name args) st =
         .ok (.callIndirect slot irArgs, st1)) ∧
    (∀ (fuel : Nat) (name : String) (args : List AST) (st : GenState),
       lookupA name st.local_variables = none →
       lookupA name st.module_funcs = none →
       generate_expression (fuel + 2) (.funcCall name args) st =
         .error ("Unknown function: " ++ name)) := by
  refine ⟨?_, ?_, ?_, ?_, ?_, ?_⟩
  · -- (1) emitted implies matching counts
    intro fuel name args st e st1 h
    rw [generate_expression] at h
    rcases hl : lookupA name st.local_variables with _ | slot <;> simp only [hl] at h
    · exact Or.inr (direct_call_ok_arity h)
    · rcases ht : lookupA name st.variable_types with _ | ty <;> simp only [ht] at h
      · exact Or.inr (direct_call_ok_arity h)
      · by_cases hfp : is_function_pointer_type ty = true
        · rw [if_pos hfp] at h
          obtain ⟨lt, hlt, h⟩ := bindE_ok h
          obtain ⟨ft, hft, h⟩ := bindE_ok h
          by_cases hlen : args.length = ft.param_types.length
          · exact Or.inl ⟨ty, ft, rfl, hft, hlen⟩
          · rw [if_pos hlen] at h; exact absurd h (by simp)
        · rw [if_neg hfp] at h
          exact Or.inr (direct_call_ok_arity h)
  · -- (2) indirect mismatch
    intro fuel name args st slot ty lt ft hl ht hfp hlt hft hlen
    simp [generate_expression, hl, ht, hfp, hlt, hft, hlen, ok_bind]
  · -- (3) direct mismatch
    intro fuel name args st arity hl hmf hlen
    simp [generate_expression, hl, generate_direct_call, hmf, hlen]
  · -- (4) direct match emits the call
    intro fuel name args st arity irArgs st1 hl hmf hlen hargs
    simp [generate_expression, hl, generate_direct_call, hmf, hlen, hargs, ok_bind]
  · -- (5) indirect match emits the call
    intro fuel name args st slot ty lt ft irArgs st1 lps lrt hl ht hfp hlt hft hlen hargs hlps hlrt
    simp [generate_expression, hl, ht, hfp, hlt, hft, hlen, hargs, hlps, hlrt, ok_bind]
  · -- (6) unknown callee
    intro fuel name args st hl hmf
    simp [generate_expression, hl, generate_direct_call, hmf]

end VoidCompiler

namespace VoidCompiler

/-- Witness for the C3 theorem: concrete mismatching and matching call
sites, direct and indirect, and an unknown callee. -/
theorem call_arity_law_C3_witness :
    (generate_expression 2 (.funcCall "f" [])
       { initGenState with module_funcs := [("f", 1)] } =
      .error ("Function '" ++ "f" ++ "' expects " ++ toString (1 : Nat) ++
        " arguments, but " ++ toString (0 : Nat) ++ " were provided")) ∧
    (generate_expression 2 (.funcCall "g" [])
       { initGenState with local_variables := [("g", 0)],
                           variable_types := [("g", "fn(i32) -> i32")] } =
      .error ("Function pointer '" ++ "g" ++ "' expects " ++ toString (1 : Nat) ++
        " arguments, but " ++ toString (0 : Nat) ++ " were provided")) ∧
    (generate_expression 4 (.funcCall "f" [.numberLit 1])
       { initGenState with module_funcs := [("f", 1)] } =
      .ok (.callDirect "f" [.constI32 1],
           { initGenState with module_funcs := [("f", 1)] })) ∧
    (generate_expression 2 (.funcCall "q" []) initGenState =
      .error ("Unknown function: " ++ "q")) :=
  ⟨call_arity_law_C3.2.2.1 0 "f" [] { initGenState with module_funcs := [("f", 1)] } 1
     rfl rfl (by decide),
   call_arity_law_C3.2.1 0 "g" []
     { initGenState with local_variables := [("g", 0)],
                         variable_types := [("g", "fn(i32) -> i32")] } 0
     "fn(i32) -> i32" (.ptr (.fnTy [.int 32] (.int 32))) ⟨["i32"], "i32"⟩
     rfl rfl rfl rfl rfl (by decide),
   call_arity_law_C3.2.2.2.1 2 "f" [.numberLit 1]
     { initGenState with module_funcs := [("f", 1)] } 1 [.constI32 1]
     { initGenState with module_funcs := [("f", 1)] } rfl rfl rfl rfl,
   call_arity_law_C3.2.2.2.2.2 0 "q" [] initGenState rfl rfl⟩

end VoidCompiler


namespace VoidCompiler

/-- The length of a string built from a character list. -/
theorem string_mk_length (l : List Char) : (String.mk l).length = l.length := rfl

/-- read_number leaves the line unchanged and advances the column by
exactly the number of digits read. -/
theorem readNumGo_spec : ∀ (l : List Char) (line col : Nat),
    (readNumGo l line col).2.line = line ∧
    (readNumGo l line col).2.column = col + (readNumGo l line col).1.length := by
  intro l
  induction l with
  | nil => intro line col; exact ⟨rfl, rfl⟩
  | cons c rest ih =>
      intro line col
      by_cases h : c.isDigit
      · have h1 := (ih line (col + 1)).1
        have h2 := (ih line (col + 1)).2
        simp only [readNumGo, h, if_true]
        refine ⟨h1, ?_⟩
        simp only [List.length_cons]
        omega
      · simp [readNumGo, h]

/-- read_identifier leaves the line unchanged and advances the column by
exactly the number of identifier characters read. -/
theorem readIdentGo_spec : ∀ (l : List Char) (line col : Nat),
    (readIdentGo l line col).2.line = line ∧
    (readIdentGo l line col).2.column = col + (readIdentGo l line col).1.length := by
  intro l
  induction l with
  | nil => intro line col; exact ⟨rfl, rfl⟩
  | cons c rest ih =>
      intro line col
      by_cases h : (c.isAlphanum || c = '_') = true
      · have h1 := (ih line (col + 1)).1
        have h2 := (ih line (col + 1)).2
        simp only [readIdentGo, h, if_true]
        refine ⟨h1, ?_⟩
        simp only [List.length_cons]
        omega
      · simp [readIdentGo, h]

/-- The keyword table maps every lexeme to an identifier-or-keyword
kind. -/
theorem keyword_type_kind (id : String) :
    isIdentOrKeywordKind (keyword_type id) = true := by
  rw [keyword_type]
  by_cases h0 : id = "const"
  case pos => rw [if_pos h0]; rfl
  case neg =>
    rw [if_neg h0]
    by_cases h1 : id = "fn"
    case pos => rw [if_pos h1]; rfl
    case neg =>
      rw [if_neg h1]
      by_cases h2 : id = "return"
      case pos => rw [if_pos h2]; rfl
      case neg =>
        rw [if_neg h2]
        by_cases h3 : id = "i8"
        case pos => rw [if_pos h3]; rfl
        case neg =>
          rw [if_neg h3]
          by_cases h4 : id = "i16"
          case pos => rw [if_pos h4]; rfl
          case neg =>
            rw [if_neg h4]
            by_cases h5 : id = "i32"
            case pos => rw [if_pos h5]; rfl
            case neg =>
              rw [if_neg h5]
              by_cases h6 : id = "i64"
              case pos => rw [if_pos h6]; rfl
              case neg =>
                rw [if_neg h6]
                by_cases h7 : id = "u8"
                case pos => rw [if_pos h7]; rfl
                case neg =>
                  rw [if_neg h7]
                  by_cases h8 : id = "u16"
                  case pos => rw [if_pos h8]; rfl
                  case neg =>
                    rw [if_neg h8]
                    by_cases h9 : id = "u32"
                    case pos => rw [if_pos h9]; rfl
                    case neg =>
                      rw [if_neg h9]
                      by_cases h10 : id = "u64"
                      case pos => rw [if_pos h10]; rfl
                      case neg =>
                        rw [if_neg h10]
                        by_cases h11 : id = "bool"
                        case pos => rw [if_pos h11]; rfl
                        case neg =>
                          rw [if_neg h11]
                          by_cases h12 : id = "true"
                          case pos => rw [if_pos h12]; rfl
                          case neg =>
                            rw [if_neg h12]
                            by_cases h13 : id = "false"
                            case pos => rw [if_pos h13]; rfl
                            case neg =>
                              rw [if_neg h13]
                              by_cases h14 : id = "import"
                              case pos => rw [if_pos h14]; rfl
                              case neg =>
                                rw [if_neg h14]
                                by_cases h15 : id = "if"
                                case pos => rw [if_pos h15]; rfl
                                case neg =>
                                  rw [if_neg h15]
                                  by_cases h16 : id = "else"
                                  case pos => rw [if_pos h16]; rfl
                                  case neg =>
                                    rw [if_neg h16]
                                    by_cases h17 : id = "and"
                                    case pos => rw [if_pos h17]; rfl
                                    case neg =>
                                      rw [if_neg h17]
                                      by_cases h18 : id = "or"
                                      case pos => rw [if_pos h18]; rfl
                                      case neg =>
                                        rw [if_neg h18]
                                        by_cases h19 : id = "not"
                                        case pos => rw [if_pos h19]; rfl
                                        case neg =>
                                          rw [if_neg h19]
                                          by_cases h20 : id = "loop"
                                          case pos => rw [if_pos h20]; rfl
                                          case neg =>
                                            rw [if_neg h20]
                                            by_cases h21 : id = "in"
                                            case pos => rw [if_pos h21]; rfl
                                            case neg =>
                                              rw [if_neg h21]
                                              by_cases h22 : id = "do"
                                              case pos => rw [if_pos h22]; rfl
                                              case neg =>
                                                rw [if_neg h22]
                                                by_cases h23 : id = "void"
                                                case pos => rw [if_pos h23]; rfl
                                                case neg =>
                                                  rw [if_neg h23]
                                                  by_cases h24 : id = "string"
                                                  case pos => rw [if_pos h24]; rfl
                                                  case neg =>
                                                    rw [if_neg h24]
                                                    by_cases h25 : id = "nil"
                                                    case pos => rw [if_pos h25]; rfl
                                                    case neg =>
                                                      rw [if_neg h25]; rfl

/-- No token kind is both an identifier-or-keyword kind and an operator
kind. -/
theorem kinds_not_both : ∀ τ : TokenType,
    ¬(isIdentOrKeywordKind τ = true ∧ isOperatorKind τ = true) := by
  intro τ h
  obtain ⟨h1, h2⟩ := h
  cases τ <;> simp_all [isIdentOrKeywordKind, isOperatorKind]

/-- C9 amended: the positions the lexer records are the counters as
they stand when the token is built. For punctuation and operator tokens
the recorded column is the column of the first character of the lexeme
(the saved start column); for EndOfFile it is the position at end of
input; but for Number and Identifier/keyword tokens the recorded
position is the start position advanced past the whole lexeme (start
column plus lexeme length, same line), and for StringLiteral tokens it
is the position immediately after the closing quote - not the first
character of the lexeme. -/
theorem lexer_position_amended_C9 :
    ∀ (s : LexState) (t : Token) (s2 : LexState),
    next_token_core s = .ok (t, s2) →
    ((t.type = .Number ∨ isIdentOrKeywordKind t.type = true) →
       t.line = s.line ∧ t.column = s.column + t.value.length) ∧
    (t.type = .StringLiteral → t.line = s2.line ∧ t.column = s2.column) ∧
    (isOperatorKind t.type = true → t.column = s.column) ∧
    (t.type = .EndOfFile → t.line = s.line ∧ t.column = s.column) := by
  intro s t s2 h
  obtain ⟨src, line, col⟩ := s
  cases src with
  | nil =>
      simp only [next_token_core, Except.ok.injEq, Prod.mk.injEq] at h
      obtain ⟨h1, h2⟩ := h
      subst h1
      subst h2
      refine ⟨?_, ?_, ?_, ?_⟩ <;> intro hx
      · simp [isIdentOrKeywordKind] at hx
      · simp at hx
      · simp [isOperatorKind] at hx
      · exact ⟨rfl, rfl⟩
  | cons c rest =>
      simp only [next_token_core] at h
      by_cases hdig : c.isDigit = true
      · rw [if_pos hdig] at h
        simp only [Except.ok.injEq, Prod.mk.injEq] at h
        obtain ⟨h1, h2⟩ := h
        subst h1
        subst h2
        refine ⟨?_, ?_, ?_, ?_⟩ <;> intro hx
        · exact ⟨(readNumGo_spec (c :: rest) line col).1, by
            simp only [string_mk_length]
            exact (readNumGo_spec (c :: rest) line col).2⟩
        · simp at hx
        · simp [isOperatorKind] at hx
        · simp at hx
      · rw [if_neg hdig] at h
        by_cases hq : c = '"'
        · rw [if_pos hq] at h
          rcases hstr : readStringGo rest line (col + 1) with msg | p <;> rw [hstr] at h
          · exact absurd h (by simp [Except.map])
          · simp only [Except.map, Except.ok.injEq, Prod.mk.injEq] at h
            obtain ⟨h1, h2⟩ := h
            subst h1
            subst h2
            refine ⟨?_, ?_, ?_, ?_⟩ <;> intro hx
            · simp [isIdentOrKeywordKind] at hx
            · exact ⟨rfl, rfl⟩
            · simp [isOperatorKind] at hx
            · simp at hx
        · rw [if_neg hq] at h
          by_cases hal : (c.isAlpha || c = '_') = true
          · rw [if_pos hal] at h
            simp only [Except.ok.injEq, Prod.mk.injEq] at h
            obtain ⟨h1, h2⟩ := h
            subst h1
            subst h2
            have hk := keyword_type_kind (String.mk (readIdentGo (c :: rest) line col).1)
            refine ⟨?_, ?_, ?_, ?_⟩ <;> intro hx
            · exact ⟨(readIdentGo_spec (c :: rest) line col).1, by
                simp only [string_mk_length]
                exact (readIdentGo_spec (c :: rest) line col).2⟩
            · rw [show ({ type := keyword_type (String.mk (readIdentGo (c :: rest) line col).1),
                          value := String.mk (readIdentGo (c :: rest) line col).1,
                          line := (readIdentGo (c :: rest) line col).2.line,
                          column := (readIdentGo (c :: rest) line col).2.column } : Token).type =
                      keyword_type (String.mk (readIdentGo (c :: rest) line col).1) from rfl] at hx
              rw [hx] at hk
              simp [isIdentOrKeywordKind] at hk
            · exact absurd ⟨hk, hx⟩ (kinds_not_both _)
            · rw [show ({ type := keyword_type (String.mk (readIdentGo (c :: rest) line col).1),
                          value := String.mk (readIdentGo (c :: rest) line col).1,
                          line := (readIdentGo (c :: rest) line col).2.line,
                          column := (readIdentGo (c :: rest) line col).2.column } : Token).type =
                      keyword_type (String.mk (readIdentGo (c :: rest) line col).1) from rfl] at hx
              rw [hx] at hk
              simp [isIdentOrKeywordKind] at hk
          · rw [if_neg hal] at h
            by_cases hc0 : c = '='
            case pos =>
              rw [if_pos hc0] at h
              by_cases hn0 : current_char (advance ⟨c :: rest, line, col⟩) = '='
              case pos =>
                rw [if_pos hn0] at h
                simp only [Except.ok.injEq, Prod.mk.injEq] at h
                obtain ⟨h1, h2⟩ := h
                subst h1
                subst h2
                refine ⟨?_, ?_, ?_, ?_⟩ <;> intro hx
                · simp [isIdentOrKeywordKind] at hx
                · simp at hx
                · rfl
                · simp at hx
              case neg =>
                rw [if_neg hn0] at h
                simp only [Except.ok.injEq, Prod.mk.injEq] at h
                obtain ⟨h1, h2⟩ := h
                subst h1
                subst h2
                refine ⟨?_, ?_, ?_, ?_⟩ <;> intro hx
                · simp [isIdentOrKeywordKind] at hx
                · simp at hx
                · rfl
                · simp at hx
            case neg =>
              rw [if_neg hc0] at h
              by_cases hc1 : c = '>'
              case pos =>
                rw [if_pos hc1] at h
                by_cases hn1 : current_char (advance ⟨c :: rest, line, col⟩) = '='
                case pos =>
                  rw [if_pos hn1] at h
                  simp only [Except.ok.injEq, Prod.mk.injEq] at h
                  obtain ⟨h1, h2⟩ := h
                  subst h1
                  subst h2
                  refine ⟨?_, ?_, ?_, ?_⟩ <;> intro hx
                  · simp [isIdentOrKeywordKind] at hx
                  · simp at hx
                  · rfl
                  · simp at hx
                case neg =>
                  rw [if_neg hn1] at h
                  simp only [Except.ok.injEq, Prod.mk.injEq] at h
                  obtain ⟨h1, h2⟩ := h
                  subst h1
                  subst h2
                  refine ⟨?_, ?_, ?_, ?_⟩ <;> intro hx
                  · simp [isIdentOrKeywordKind] at hx
                  · simp at hx
                  · rfl
                  · simp at hx
              case neg =>
                rw [if_neg hc1] at h
                by_cases hc2 : c = '<'
                case pos =>
                  rw [if_pos hc2] at h
                  by_cases hn2 : current_char (advance ⟨c :: rest, line, col⟩) = '='
                  case pos =>
                    rw [if_pos hn2] at h
                    simp only [Except.ok.injEq, Prod.mk.injEq] at h
                    obtain ⟨h1, h2⟩ := h
                    subst h1
                    subst h2
                    refine ⟨?_, ?_, ?_, ?_⟩ <;> intro hx
                    · simp [isIdentOrKeywordKind] at hx
                    · simp at hx
                    · rfl
                    · simp at hx
                  case neg =>
                    rw [if_neg hn2] at h
                    simp only [Except.ok.injEq, Prod.mk.injEq] at h
                    obtain ⟨h1, h2⟩ := h
                    subst h1
                    subst h2
                    refine ⟨?_, ?_, ?_, ?_⟩ <;> intro hx
                    · simp [isIdentOrKeywordKind] at hx
                    · simp at hx
                    · rfl
                    · simp at hx
                case neg =>
                  rw [if_neg hc2] at h
                  by_cases hc3 : c = '!'
                  case pos =>
                    rw [if_pos hc3] at h
                    by_cases hn3 : current_char (advance ⟨c :: rest, line, col⟩) = '='
                    case pos =>
                      rw [if_pos hn3] at h
                      simp only [Except.ok.injEq, Prod.mk.injEq] at h
                      obtain ⟨h1, h2⟩ := h
                      subst h1
                      subst h2
                      refine ⟨?_, ?_, ?_, ?_⟩ <;> intro hx
                      · simp [isIdentOrKeywordKind] at hx
                      · simp at hx
                      · rfl
                      · simp at hx
                    case neg =>
                      rw [if_neg hn3] at h
                      exact absurd h (by simp)
                  case neg =>
                    rw [if_neg hc3] at h
                    by_cases hc4 : c = '('
                    case pos =>
                      rw [if_pos hc4] at h
                      simp only [Except.ok.injEq, Prod.mk.injEq] at h
                      obtain ⟨h1, h2⟩ := h
                      subst h1
                      subst h2
                      refine ⟨?_, ?_, ?_, ?_⟩ <;> intro hx
                      · simp [isIdentOrKeywordKind] at hx
                      · simp at hx
                      · rfl
                      · simp at hx
                    case neg =>
                      rw [if_neg hc4] at h
                      by_cases hc5 : c = ')'
                      case pos =>
                        rw [if_pos hc5] at h
                        simp only [Except.ok.injEq, Prod.mk.injEq] at h
                        obtain ⟨h1, h2⟩ := h
                        subst h1
                        subst h2
                        refine ⟨?_, ?_, ?_, ?_⟩ <;> intro hx
                        · simp [isIdentOrKeywordKind] at hx
                        · simp at hx
                        · rfl
                        · simp at hx
                      case neg =>
                        rw [if_neg hc5] at h
                        by_cases hc6 : c = '\x7b'
                        case pos =>
                          rw [if_pos hc6] at h
                          simp only [Except.ok.injEq, Prod.mk.injEq] at h
                          obtain ⟨h1, h2⟩ := h
                          subst h1
                          subst h2
                          refine ⟨?_, ?_, ?_, ?_⟩ <;> intro hx
                          · simp [isIdentOrKeywordKind] at hx
                          · simp at hx
                          · rfl
                          · simp at hx
                        case neg =>
                          rw [if_neg hc6] at h
                          by_cases hc7 : c = '\x7d'
                          case pos =>
                            rw [if_pos hc7] at h
                            simp only [Except.ok.injEq, Prod.mk.injEq] at h
                            obtain ⟨h1, h2⟩ := h
                            subst h1
                            subst h2
                            refine ⟨?_, ?_, ?_, ?_⟩ <;> intro hx
                            · simp [isIdentOrKeywordKind] at hx
                            · simp at hx
                            · rfl
                            · simp at hx
                          case neg =>
                            rw [if_neg hc7] at h
                            by_cases hc8 : c = '['
                            case pos =>
                              rw [if_pos hc8] at h
                              simp only [Except.ok.injEq, Prod.mk.injEq] at h
                              obtain ⟨h1, h2⟩ := h
                              subst h1
                              subst h2
                              refine ⟨?_, ?_, ?_, ?_⟩ <;> intro hx
                              · simp [isIdentOrKeywordKind] at hx
                              · simp at hx
                              · rfl
                              · simp at hx
                            case neg =>
                              rw [if_neg hc8] at h
                              by_cases hc9 : c = ']'
                              case pos =>
                                rw [if_pos hc9] at h
                                simp only [Except.ok.injEq, Prod.mk.injEq] at h
                                obtain ⟨h1, h2⟩ := h
                                subst h1
                                subst h2
                                refine ⟨?_, ?_, ?_, ?_⟩ <;> intro hx
                                · simp [isIdentOrKeywordKind] at hx
                                · simp at hx
                                · rfl
                                · simp at hx
                              case neg =>
                                rw [if_neg hc9] at h
                                by_cases hc10 : c = ','
                                case pos =>
                                  rw [if_pos hc10] at h
                                  simp only [Except.ok.injEq, Prod.mk.injEq] at h
                                  obtain ⟨h1, h2⟩ := h
                                  subst h1
                                  subst h2
                                  refine ⟨?_, ?_, ?_, ?_⟩ <;> intro hx
                                  · simp [isIdentOrKeywordKind] at hx
                                  · simp at hx
                                  · rfl
                                  · simp at hx
                                case neg =>
                                  rw [if_neg hc10] at h
                                  by_cases hc11 : c = ':'
                                  case pos =>
                                    rw [if_pos hc11] at h
                                    by_cases hn11 : current_char (advance ⟨c :: rest, line, col⟩) = '='
                                    case pos =>
                                      rw [if_pos hn11] at h
                                      simp only [Except.ok.injEq, Prod.mk.injEq] at h
                                      obtain ⟨h1, h2⟩ := h
                                      subst h1
                                      subst h2
                                      refine ⟨?_, ?_, ?_, ?_⟩ <;> intro hx
                                      · simp [isIdentOrKeywordKind] at hx
                                      · simp at hx
                                      · rfl
                                      · simp at hx
                                    case neg =>
                                      rw [if_neg hn11] at h
                                      simp only [Except.ok.injEq, Prod.mk.injEq] at h
                                      obtain ⟨h1, h2⟩ := h
                                      subst h1
                                      subst h2
                                      refine ⟨?_, ?_, ?_, ?_⟩ <;> intro hx
                                      · simp [isIdentOrKeywordKind] at hx
                                      · simp at hx
                                      · rfl
                                      · simp at hx
                                  case neg =>
                                    rw [if_neg hc11] at h
                                    by_cases hc12 : c = '+'
                                    case pos =>
                                      rw [if_pos hc12] at h
                                      simp only [Except.ok.injEq, Prod.mk.injEq] at h
                                      obtain ⟨h1, h2⟩ := h
                                      subst h1
                                      subst h2
                                      refine ⟨?_, ?_, ?_, ?_⟩ <;> intro hx
                                      · simp [isIdentOrKeywordKind] at hx
                                      · simp at hx
                                      · rfl
                                      · simp at hx
                                    case neg =>
                                      rw [if_neg hc12] at h
                                      by_cases hc13 : c = '*'
                                      case pos =>
                                        rw [if_pos hc13] at h
                                        simp only [Except.ok.injEq, Prod.mk.injEq] at h
                                        obtain ⟨h1, h2⟩ := h
                                        subst h1
                                        subst h2
                                        refine ⟨?_, ?_, ?_, ?_⟩ <;> intro hx
                                        · simp [isIdentOrKeywordKind] at hx
                                        · simp at hx
                                        · rfl
                                        · simp at hx
                                      case neg =>
                                        rw [if_neg hc13] at h
                                        by_cases hc14 : c = '/'
                                        case pos =>
                                          rw [if_pos hc14] at h
                                          simp only [Except.ok.injEq, Prod.mk.injEq] at h
                                          obtain ⟨h1, h2⟩ := h
                                          subst h1
                                          subst h2
                                          refine ⟨?_, ?_, ?_, ?_⟩ <;> intro hx
                                          · simp [isIdentOrKeywordKind] at hx
                                          · simp at hx
                                          · rfl
                                          · simp at hx
                                        case neg =>
                                          rw [if_neg hc14] at h
                                          by_cases hc15 : c = '.'
                                          case pos =>
                                            rw [if_pos hc15] at h
                                            by_cases hn15 : current_char (advance ⟨c :: rest, line, col⟩) = '.'
                                            case pos =>
                                              rw [if_pos hn15] at h
                                              simp only [Except.ok.injEq, Prod.mk.injEq] at h
                                              obtain ⟨h1, h2⟩ := h
                                              subst h1
                                              subst h2
                                              refine ⟨?_, ?_, ?_, ?_⟩ <;> intro hx
                                              · simp [isIdentOrKeywordKind] at hx
                                              · simp at hx
                                              · rfl
                                              · simp at hx
                                            case neg =>
                                              rw [if_neg hn15] at h
                                              by_cases hm15 : current_char (advance ⟨c :: rest, line, col⟩) = '*'
                                              case pos =>
                                                rw [if_pos hm15] at h
                                                simp only [Except.ok.injEq, Prod.mk.injEq] at h
                                                obtain ⟨h1, h2⟩ := h
                                                subst h1
                                                subst h2
                                                refine ⟨?_, ?_, ?_, ?_⟩ <;> intro hx
                                                · simp [isIdentOrKeywordKind] at hx
                                                · simp at hx
                                                · rfl
                                                · simp at hx
                                              case neg =>
                                                rw [if_neg hm15] at h
                                                simp only [Except.ok.injEq, Prod.mk.injEq] at h
                                                obtain ⟨h1, h2⟩ := h
                                                subst h1
                                                subst h2
                                                refine ⟨?_, ?_, ?_, ?_⟩ <;> intro hx
                                                · simp [isIdentOrKeywordKind] at hx
                                                · simp at hx
                                                · rfl
                                                · simp at hx
                                          case neg =>
                                            rw [if_neg hc15] at h
                                            by_cases hc16 : c = '-'
                                            case pos =>
                                              rw [if_pos hc16] at h
                                              by_cases hn16 : current_char (advance ⟨c :: rest, line, col⟩) = '>'
                                              case pos =>
                                                rw [if_pos hn16] at h
                                                simp only [Except.ok.injEq, Prod.mk.injEq] at h
                                                obtain ⟨h1, h2⟩ := h
                                                subst h1
                                                subst h2
                                                refine ⟨?_, ?_, ?_, ?_⟩ <;> intro hx
                                                · simp [isIdentOrKeywordKind] at hx
                                                · simp at hx
                                                · rfl
                                                · simp at hx
                                              case neg =>
                                                rw [if_neg hn16] at h
                                                simp only [Except.ok.injEq, Prod.mk.injEq] at h
                                                obtain ⟨h1, h2⟩ := h
                                                subst h1
                                                subst h2
                                                refine ⟨?_, ?_, ?_, ?_⟩ <;> intro hx
                                                · simp [isIdentOrKeywordKind] at hx
                                                · simp at hx
                                                · rfl
                                                · simp at hx
                                            case neg =>
                                              rw [if_neg hc16] at h
                                              by_cases hc17 : c = '&'
                                              case pos =>
                                                rw [if_pos hc17] at h
                                                simp only [Except.ok.injEq, Prod.mk.injEq] at h
                                                obtain ⟨h1, h2⟩ := h
                                                subst h1
                                                subst h2
                                                refine ⟨?_, ?_, ?_, ?_⟩ <;> intro hx
                                                · simp [isIdentOrKeywordKind] at hx
                                                · simp at hx
                                                · rfl
                                                · simp at hx
                                              case neg =>
                                                rw [if_neg hc17] at h
                                                exact absurd h (by simp)

/-- Witness for the amended C9 theorem, at the identifier source ab. -/
theorem lexer_position_amended_C9_witness :
    ({ type := TokenType.Identifier, value := "ab", line := 1, column := 3 } : Token).line = 1 ∧
    ({ type := TokenType.Identifier, value := "ab", line := 1, column := 3 } : Token).column =
      1 + ({ type := TokenType.Identifier, value := "ab", line := 1, column := 3 } : Token).value.length :=
  (lexer_position_amended_C9 ⟨['a', 'b'], 1, 1⟩
      { type := .Identifier, value := "ab", line := 1, column := 3 } ⟨[], 1, 3⟩ rfl).1
    (Or.inr rfl)


theorem stoi_zero : stoiDigits "0" = 0 := rfl
theorem stoi_five : stoiDigits "5" = 5 := rfl
theorem toI32_zero : toI32 0 = 0 := rfl
theorem toI32_five : toI32 5 = 5 := rfl

theorem sum_tok_0 : sumProgramToks[0]? = some (mkTok .Const "const") := rfl
theorem sum_tok_1 : sumProgramToks[1]? = some (idTok "main") := rfl
theorem sum_tok_2 : sumProgramToks[2]? = some (mkTok .Equals "=") := rfl
theorem sum_tok_3 : sumProgramToks[3]? = some (mkTok .Fn "fn") := rfl
theorem sum_tok_4 : sumProgramToks[4]? = some (mkTok .LParen "(") := rfl
theorem sum_tok_5 : sumProgramToks[5]? = some (mkTok .RParen ")") := rfl
theorem sum_tok_6 : sumProgramToks[6]? = some (mkTok .Arrow "->") := rfl
theorem sum_tok_7 : sumProgramToks[7]? = some (mkTok .I32 "i32") := rfl
theorem sum_tok_8 : sumProgramToks[8]? = some (mkTok .LBrace "\x7b") := rfl
theorem sum_tok_9 : sumProgramToks[9]? = some (idTok "sum") := rfl
theorem sum_tok_10 : sumProgramToks[10]? = some (mkTok .ColonEquals ":=") := rfl
theorem sum_tok_11 : sumProgramToks[11]? = some (mkTok .Number "0") := rfl
theorem sum_tok_12 : sumProgramToks[12]? = some (mkTok .Loop "loop") := rfl
theorem sum_tok_13 : sumProgramToks[13]? = some (idTok "i") := rfl
theorem sum_tok_14 : sumProgramToks[14]? = some (mkTok .In "in") := rfl
theorem sum_tok_15 : sumProgramToks[15]? = some (mkTok .Number "0") := rfl
theorem sum_tok_16 : sumProgramToks[16]? = some (mkTok .DotDot "..") := rfl
theorem sum_tok_17 : sumProgramToks[17]? = some (mkTok .Number "5") := rfl
theorem sum_tok_18 : sumProgramToks[18]? = some (mkTok .LBrace "\x7b") := rfl
theorem sum_tok_19 : sumProgramToks[19]? = some (idTok "sum") := rfl
theorem sum_tok_20 : sumProgramToks[20]? = some (mkTok .Equals "=") := rfl
theorem sum_tok_21 : sumProgramToks[21]? = some (idTok "sum") := rfl
theorem sum_tok_22 : sumProgramToks[22]? = some (mkTok .Plus "+") := rfl
theorem sum_tok_23 : sumProgramToks[23]? = some (idTok "i") := rfl
theorem sum_tok_24 : sumProgramToks[24]? = some (mkTok .RBrace "\x7d") := rfl
theorem sum_tok_25 : sumProgramToks[25]? = some (mkTok .Return "return") := rfl
theorem sum_tok_26 : sumProgramToks[26]? = some (idTok "sum") := rfl
theorem sum_tok_27 : sumProgramToks[27]? = some (mkTok .RBrace "\x7d") := rfl
theorem sum_tok_28 : sumProgramToks[28]? = some (mkTok .EndOfFile "") := rfl
theorem sum_toks_len : sumProgramToks.length = 29 := rfl


set_option maxRecDepth 4096 in
theorem sum_stmt1_parse :
    parse_statement 96 ⟨sumProgramToks, 9, [], [("main", "i32")]⟩ =
      .ok (sumStmt1, ⟨sumProgramToks, 12, [("sum", "i32")], [("main", "i32")]⟩) := by
  simp [parse_statement, parse_variable_declaration, parse_expression, parse_logical_or,
    parse_or_loop, parse_logical_and, parse_and_loop, parse_comparison, parse_cmp_loop,
    parse_additive, parse_add_loop, parse_multiplicative, parse_mul_loop, parse_unary,
    parse_primary, infer_type, consume, peekT, matchT, matchNextT, bump, bare_return_cond,
    stoi_zero, mkTok, idTok, sumProgramToks, insertA, lookupA, Bind.bind, Except.bind,
    sumStmt1]


set_option maxRecDepth 4096 in
theorem sum_assign_parse :
    parse_statement 91 ⟨sumProgramToks, 19, [("sum", "i32")], [("main", "i32")]⟩ =
      .ok (.varAssign "sum" (.binOp (.varRef "sum") .Plus (.varRef "i")),
           ⟨sumProgramToks, 24, [("sum", "i32")], [("main", "i32")]⟩) := by
  simp [parse_statement, parse_variable_assignment, parse_expression, parse_logical_or,
    parse_or_loop, parse_logical_and, parse_and_loop, parse_comparison, parse_cmp_loop,
    parse_additive, parse_add_loop, parse_multiplicative, parse_mul_loop, parse_unary,
    parse_primary, consume, peekT, matchT, matchNextT, bump,
    sum_tok_19, sum_tok_20, sum_tok_21, sum_tok_22, sum_tok_23, sum_tok_24,
    mkTok, idTok, insertA, lookupA, Bind.bind, Except.bind]

theorem sum_inner_list_parse :
    parse_stmt_list 92 ⟨sumProgramToks, 19, [("sum", "i32")], [("main", "i32")]⟩ =
      .ok ([.varAssign "sum" (.binOp (.varRef "sum") .Plus (.varRef "i"))],
           ⟨sumProgramToks, 24, [("sum", "i32")], [("main", "i32")]⟩) := by
  simp [parse_stmt_list, sum_assign_parse, matchT, peekT, sum_tok_19, sum_tok_24,
    mkTok, idTok, Bind.bind, Except.bind]

set_option maxRecDepth 4096 in
theorem sum_range_parse :
    parse_range_expression 93 ⟨sumProgramToks, 15, [("sum", "i32")], [("main", "i32")]⟩ =
      .ok (.rangeExpr (.numberLit 0) (.numberLit 5),
           ⟨sumProgramToks, 18, [("sum", "i32")], [("main", "i32")]⟩) := by
  simp [parse_range_expression, parse_additive, parse_add_loop, parse_multiplicative,
    parse_mul_loop, parse_unary, parse_primary, consume, peekT, matchT, bump,
    stoi_zero, stoi_five, sum_tok_15, sum_tok_16, sum_tok_17, sum_tok_18,
    mkTok, idTok, Bind.bind, Except.bind]

theorem sum_inner_body_parse :
    parse_body 93 ⟨sumProgramToks, 18, [("sum", "i32")], [("main", "i32")]⟩ =
      .ok ([.varAssign "sum" (.binOp (.varRef "sum") .Plus (.varRef "i"))],
           ⟨sumProgramToks, 25, [("sum", "i32")], [("main", "i32")]⟩) := by
  simp [parse_body, consume, peekT, matchT, bump, sum_inner_list_parse,
    sum_tok_18, sum_tok_24, mkTok, idTok, Bind.bind, Except.bind]

theorem parse_loop_range_shape (fuel : Nat) (st st1 st2 st3 st4 st5 : PState)
    (lT varT iT : Token) (rng : AST) (body : List AST)
    (h1 : consume .Loop st = .ok (lT, st1))
    (h2 : matchT st1 .If = false)
    (h3 : consume .Identifier st1 = .ok (varT, st2))
    (h4 : consume .In st2 = .ok (iT, st3))
    (h5 : parse_range_expression fuel st3 = .ok (rng, st4))
    (h6 : parse_body fuel st4 = .ok (body, st5)) :
    parse_loop_statement (fuel + 1) st = .ok (.loopRange varT.value rng body, st5) := by
  simp [parse_loop_statement, h1, h2, h3, h4, h5, h6, Bind.bind, Except.bind]

theorem sum_loop_parse :
    parse_loop_statement 94 ⟨sumProgramToks, 12, [("sum", "i32")], [("main", "i32")]⟩ =
      .ok (sumStmt2, ⟨sumProgramToks, 25, [("sum", "i32")], [("main", "i32")]⟩) :=
  parse_loop_range_shape 93
    ⟨sumProgramToks, 12, [("sum", "i32")], [("main", "i32")]⟩
    ⟨sumProgramToks, 13, [("sum", "i32")], [("main", "i32")]⟩
    ⟨sumProgramToks, 14, [("sum", "i32")], [("main", "i32")]⟩
    ⟨sumProgramToks, 15, [("sum", "i32")], [("main", "i32")]⟩
    ⟨sumProgramToks, 18, [("sum", "i32")], [("main", "i32")]⟩
    ⟨sumProgramToks, 25, [("sum", "i32")], [("main", "i32")]⟩
    (mkTok .Loop "loop") (idTok "i") (mkTok .In "in")
    (.rangeExpr (.numberLit 0) (.numberLit 5))
    [.varAssign "sum" (.binOp (.varRef "sum") .Plus (.varRef "i"))]
    rfl rfl rfl rfl sum_range_parse sum_inner_body_parse

theorem sum_stmt2_parse :
    parse_statement 95 ⟨sumProgramToks, 12, [("sum", "i32")], [("main", "i32")]⟩ =
      .ok (sumStmt2, ⟨sumProgramToks, 25, [("sum", "i32")], [("main", "i32")]⟩) := by
  simp [parse_statement, sum_loop_parse, peekT, matchT, matchNextT, sum_tok_12,
    mkTok, idTok, Bind.bind, Except.bind]

set_option maxRecDepth 4096 in
theorem sum_stmt3_parse :
    parse_statement 94 ⟨sumProgramToks, 25, [("sum", "i32")], [("main", "i32")]⟩ =
      .ok (sumStmt3, ⟨sumProgramToks, 27, [("sum", "i32")], [("main", "i32")]⟩) := by
  simp [parse_statement, parse_expression, parse_logical_or,
    parse_or_loop, parse_logical_and, parse_and_loop, parse_comparison, parse_cmp_loop,
    parse_additive, parse_add_loop, parse_multiplicative, parse_mul_loop, parse_unary,
    parse_primary, consume, peekT, matchT, matchNextT, bump, bare_return_cond,
    mkTok, idTok, sumProgramToks, insertA, lookupA, Bind.bind, Except.bind, sumStmt3]

set_option maxRecDepth 4096 in
theorem sum_body_parse :
    parse_stmt_list 97 ⟨sumProgramToks, 9, [], [("main", "i32")]⟩ =
      .ok ([sumStmt1, sumStmt2, sumStmt3],
           ⟨sumProgramToks, 27, [("sum", "i32")], [("main", "i32")]⟩) := by
  simp [parse_stmt_list, sum_stmt1_parse, sum_stmt2_parse, sum_stmt3_parse, matchT,
    sum_tok_9, sum_tok_12, sum_tok_25, sum_tok_27, mkTok, idTok, Bind.bind, Except.bind]


theorem sum_params_parse :
    parse_params 98 ⟨sumProgramToks, 5, [], []⟩ = .ok ([], ⟨sumProgramToks, 5, [], []⟩) := by
  simp [parse_params, matchT, peekT, sum_tok_5, mkTok]

theorem sum_fn_body_parse :
    parse_body 98 ⟨sumProgramToks, 8, [], [("main", "i32")]⟩ =
      .ok ([sumStmt1, sumStmt2, sumStmt3],
           ⟨sumProgramToks, 28, [("sum", "i32")], [("main", "i32")]⟩) := by
  simp [parse_body, consume, peekT, matchT, bump, sum_body_parse,
    sum_tok_8, sum_tok_27, mkTok, idTok, Bind.bind, Except.bind]

theorem parse_function_shape (fuel : Nat)
    (st stA st1 st2 st3 st4 st5 st6 stC stB st9 : PState)
    (cT nameT eT fT lT rT aT iT : Token)
    (params : List (String × String)) (body : List AST)
    (h1 : consume .Const st = .ok (cT, stA))
    (h2 : consume .Identifier stA = .ok (nameT, st1))
    (h3 : consume .Equals st1 = .ok (eT, st2))
    (h4 : consume .Fn st2 = .ok (fT, st3))
    (h5 : consume .LParen st3 = .ok (lT, st4))
    (h6 : parse_params fuel st4 = .ok (params, st5))
    (h7 : consume .RParen st5 = .ok (rT, st6))
    (h8 : matchT st6 .Arrow = true)
    (h9 : consume .Arrow st6 = .ok (aT, stC))
    (h10 : matchT stC .I32 = true)
    (h11 : consume .I32 stC = .ok (iT, stB))
    (h12 : parse_body fuel
        { stB with function_return_types :=
            insertA nameT.value iT.value stB.function_return_types } = .ok (body, st9)) :
    parse_function (fuel + 1) st =
      .ok ({ name := nameT.value, returnType := iT.value,
             params := params, body := body }, st9) := by
  simp [parse_function, h1, h2, h3, h4, h5, h6, h7, h8, h9, h10, h11, h12,
        Bind.bind, Except.bind, pure, Except.pure]

theorem sum_fn_parse :
    parse_function 99 ⟨sumProgramToks, 0, [], []⟩ =
      .ok ({ name := "main", returnType := "i32", params := [],
             body := [sumStmt1, sumStmt2, sumStmt3] },
           ⟨sumProgramToks, 28, [("sum", "i32")], [("main", "i32")]⟩) :=
  parse_function_shape 98
    ⟨sumProgramToks, 0, [], []⟩ ⟨sumProgramToks, 1, [], []⟩ ⟨sumProgramToks, 2, [], []⟩
    ⟨sumProgramToks, 3, [], []⟩ ⟨sumProgramToks, 4, [], []⟩ ⟨sumProgramToks, 5, [], []⟩
    ⟨sumProgramToks, 5, [], []⟩ ⟨sumProgramToks, 6, [], []⟩ ⟨sumProgramToks, 7, [], []⟩
    ⟨sumProgramToks, 8, [], []⟩
    ⟨sumProgramToks, 28, [("sum", "i32")], [("main", "i32")]⟩
    (mkTok .Const "const") (idTok "main") (mkTok .Equals "=") (mkTok .Fn "fn")
    (mkTok .LParen "(") (mkTok .RParen ")") (mkTok .Arrow "->") (mkTok .I32 "i32")
    [] [sumStmt1, sumStmt2, sumStmt3]
    rfl rfl rfl rfl rfl sum_params_parse rfl rfl rfl rfl rfl sum_fn_body_parse

set_option maxRecDepth 4096 in
theorem sum_parse :
    parse_tokens 100 sumProgramToks = .ok sumProgramAST := by
  simp [parse_tokens, parse_program_loop, sum_fn_parse, matchT, sum_tok_0, sum_tok_28,
    mkTok, idTok, Bind.bind, Except.bind, Except.map, sumProgramAST]

theorem sumGenOut_funcs : sumGenOut.gen_funcs = [sumMainIR] := rfl
theorem toI32_1 : toI32 1 = 1 := rfl
theorem toI32_2 : toI32 2 = 2 := rfl
theorem toI32_3 : toI32 3 = 3 := rfl
theorem toI32_4 : toI32 4 = 4 := rfl
theorem toI32_6 : toI32 6 = 6 := rfl
theorem toI32_10 : toI32 10 = 10 := rfl

set_option maxRecDepth 4096 in
theorem sum_codegen :
    generate_program 100 sumProgramAST initGenState = .ok sumGenOut := by
  simp [generate_program, generate_function_list, generate_function, function_entry_state,
    allocParamsGo, generate_statements, generate_statement, generate_range_loop,
    generate_expression, get_llvm_type_from_string, get_llvm_type_go,
    is_function_pointer_type, startsWithList, toI32_zero, toI32_five,
    initGenState, insertA, lookupA, eraseA, sumProgramAST, sumStmt1, sumStmt2, sumStmt3,
    sumMainIR, sumGenOut, Bind.bind, Except.bind]

set_option maxRecDepth 4096 in
theorem sum_run : runFunc 100 [sumMainIR] "main" [] = some (some (.vInt 10)) := by
  simp [runFunc, findFunc, sumMainIR, execStmts, execStmt, evalExpr, rangeLoopIter,
    lookupSlot, setSlot, toI32_zero, toI32_five, toI32_1, toI32_2, toI32_3, toI32_4,
    toI32_6, toI32_10]

/-- C1: the emitted range loop initializes the loop slot to the start
value, before each iteration compares the slot signed-less-than against
the end value, executes the body then stores the slot value plus one,
and runs the body zero times when start is not below end; in particular
the program summing i over 0..5 returns 10. -/
theorem range_loop_semantics_C1 :
    (∀ (fuel : Nat) (var : String) (first last : AST) (body : List AST)
       (st st1 st2 st4 : GenState) (sv ev : IRExpr) (bodyIR : List IRStmt),
       generate_expression fuel first st = .ok (sv, st1) →
       generate_expression fuel last st1 = .ok (ev, st2) →
       generate_statements fuel body
         { st2 with next_slot := st2.next_slot + 1,
                    local_variables := insertA var st2.next_slot st2.local_variables } =
         .ok (bodyIR, st4) →
       generate_range_loop (fuel + 1) var (.rangeExpr first last) body st =
         .ok ([.rangeLoop st2.next_slot sv ev bodyIR],
           { st4 with local_variables := eraseA var st4.local_variables,
                      block_terminated := false })) ∧
    (∀ (fuel : Nat) (module : List IRFunc) (args : List Value) (slot : Nat)
       (sE eE : IRExpr) (body : List IRStmt) (env : List (Nat × Value)) (a b : Int),
       evalExpr (fuel + 1) module args sE env = some (.vInt a) →
       evalExpr (fuel + 1) module args eE env = some (.vInt b) →
       b ≤ a →
       execStmt (fuel + 2) module args (.rangeLoop slot sE eE body) env =
         some ⟨setSlot slot (.vInt a) env, none, 0⟩) ∧
    (∀ (fuel : Nat) (module : List IRFunc) (args : List Value) (slot : Nat)
       (b : Int) (body : List IRStmt) (env : List (Nat × Value)) (i cur : Int)
       (out rec2 : ExecOut),
       lookupSlot slot env = some (.vInt i) →
       i < b →
       execStmts fuel module args body env = some out →
       out.ret = none →
       lookupSlot slot out.env = some (.vInt cur) →
       rangeLoopIter fuel module args slot b body
         (setSlot slot (.vInt (toI32 (cur + 1))) out.env) = some rec2 →
       rangeLoopIter (fuel + 1) module args slot b body env =
         some ⟨rec2.env, rec2.ret, out.iters + 1 + rec2.iters⟩) ∧
    sumProgramResult = some (some (.vInt 10)) := by
  refine ⟨?_, ?_, ?_, ?_⟩
  · intro fuel var first last body st st1 st2 st4 sv ev bodyIR hf hl hb
    simp [generate_range_loop, hf, hl, hb, Bind.bind, Except.bind]
  · intro fuel module args slot sE eE body env a b he1 he2 hba
    have hnlt : ¬ (a < b) := by omega
    simp [execStmt, he1, he2, rangeLoopIter, lookupSlot, setSlot, hnlt]
  · intro fuel module args slot b body env i cur out rec2 hlook hib hbody hret hcur hrec
    simp [rangeLoopIter, hlook, hib, hbody, hret, hcur, hrec]
  · simp only [sumProgramResult, sum_parse, sum_codegen, sumGenOut_funcs, sum_run]

/-- Concrete instances exercising each universally quantified part of
range_loop_semantics_C1. -/
theorem range_loop_semantics_C1_witness :
    (generate_range_loop 2 "i" (.rangeExpr (.numberLit 0) (.numberLit 2)) [] initGenState =
       .ok ([.rangeLoop 0 (.constI32 0) (.constI32 2) []],
         { initGenState with next_slot := 1 })) ∧
    (execStmt 2 [] [] (.rangeLoop 0 (.constI32 3) (.constI32 2) []) [] =
       some ⟨[(0, Value.vInt 3)], none, 0⟩) ∧
    (rangeLoopIter 2 [] [] 0 1 [] [(0, Value.vInt 0)] =
       some ⟨[(0, Value.vInt 1), (0, Value.vInt 0)], none, 0 + 1 + 0⟩) :=
  ⟨range_loop_semantics_C1.1 1 "i" (.numberLit 0) (.numberLit 2) []
     initGenState initGenState initGenState
     { initGenState with next_slot := 1, local_variables := [("i", 0)] }
     (.constI32 0) (.constI32 2) [] rfl rfl rfl,
   range_loop_semantics_C1.2.1 0 [] [] 0 (.constI32 3) (.constI32 2) [] [] 3 2
     rfl rfl (by decide),
   range_loop_semantics_C1.2.2.1 1 [] [] 0 1 [] [(0, Value.vInt 0)] 0 0
     ⟨[(0, Value.vInt 0)], none, 0⟩ ⟨[(0, Value.vInt 1), (0, Value.vInt 0)], none, 0⟩
     rfl (by decide) rfl rfl rfl rfl⟩

end VoidCompiler

